import Mathlib

/-!
# KLineLens core — shallow embedding and verification

This file embeds the analysis core of the KLineLens repository
(`packages/core/src`: `features.py`, `structure.py`, `behavior.py`,
`timeline.py`, `playbook.py`, `analyze.py`, `sim_trader/state_machine.py`)
into Lean 4 and proves or refutes the claims of the specification.

Modelling conventions:
* Python floats are modelled as exact rationals `ℚ`; a possibly-NaN float is
  `Option ℚ` with `none` playing the role of NaN.  NumPy comparisons with NaN
  (always false) are mirrored by explicit `Option` matches exactly where the
  source tests `np.isnan`.
* `np.exp` (used only by the behavior softmax) is modelled by `Real.exp`;
  everything else is computable.
* Python `round(x, d)` (banker's rounding on binary doubles) is modelled by
  exact rational rounding `round (x·10^d) / 10^d`; the two agree except when
  the exact value sits on a `5·10^(-d-1)` boundary, and no theorem below
  depends on such a boundary value.
* `datetime` timestamps are modelled as integers (epoch seconds).
* String-keyed tag sets (`signal.type`, event types, severities, …) are
  modelled as closed inductive types.
-/

namespace KLine

/-! ## Basic numeric helpers -/

/-- Arithmetic mean of a rational list (`np.mean`); `0` on the empty list. -/
def qmean (l : List ℚ) : ℚ := l.sum / l.length

/-- `np.nanmean`: mean of the non-NaN entries, NaN when there are none. -/
def nanmean (l : List (Option ℚ)) : Option ℚ :=
  let vals := l.filterMap id
  if vals.isEmpty then none else some (qmean vals)

/-- Python `round(x, d)` on exact rationals (see header note). -/
def roundTo (d : ℕ) (x : ℚ) : ℚ := ((round (x * 10 ^ d) : ℤ) : ℚ) / 10 ^ d

/-- Python negative-offset slice `l[-k:]` (for `k ≥ 1`, the last `k` items). -/
def lastSlice {α : Type} (k : ℕ) (l : List α) : List α := l.drop (l.length - k)

/-! ## Data model (`models.py`) -/

/-- `Bar`: one OHLCV candle; `t` is an epoch timestamp in seconds (UTC). -/
structure Bar where
  t : ℤ
  o : ℚ
  h : ℚ
  l : ℚ
  c : ℚ
  v : ℚ
  deriving Repr, DecidableEq

/-- `Zone`: a support/resistance price band with its strength metadata. -/
structure Zone where
  low : ℚ
  high : ℚ
  score : ℚ
  touches : ℕ
  rejections : ℕ := 0
  last_reaction : ℚ := 0
  last_test_time : Option ℤ := none
  deriving Repr, DecidableEq

/-- The two zone sides, `{"support": …, "resistance": …}` in the source. -/
structure ZoneMap where
  support : List Zone
  resistance : List Zone
  deriving Repr, DecidableEq

/-- `Signal.type` tag set. -/
inductive SignalType
  | breakout_attempt
  | breakout_confirmed
  | fakeout
  deriving Repr, DecidableEq

/-- Breakout direction. -/
inductive Dir
  | up
  | down
  deriving Repr, DecidableEq

/-- `Signal.volume_quality` tag set. -/
inductive VolQ
  | confirmed
  | pending
  | unavailable
  deriving Repr, DecidableEq

/-- `Signal`: a breakout / fakeout event emitted by the FSM. -/
structure Signal where
  type : SignalType
  direction : Dir
  level : ℚ
  confidence : ℚ
  bar_time : ℤ
  bar_index : ℕ := 0
  volume_quality : VolQ := .pending
  deriving Repr, DecidableEq

/-- Market regime tag set. -/
inductive Regime
  | uptrend
  | downtrend
  | range
  deriving Repr, DecidableEq

/-- String form of a regime, as used inside i18n reason keys. -/
def regimeStr : Regime → String
  | .uptrend => "uptrend"
  | .downtrend => "downtrend"
  | .range => "range"

/-- `MarketState`: regime plus confidence. -/
structure MarketState where
  regime : Regime
  confidence : ℚ
  deriving Repr, DecidableEq

/-! ## Features (`features.py`) -/

/-- True ranges: `tr[0] = h₀ − l₀`, `tr[i] = max(hᵢ−lᵢ, |hᵢ−c_{i−1}|, |lᵢ−c_{i−1}|)`. -/
def trueRanges : List Bar → List ℚ
  | [] => []
  | b0 :: rest =>
      let rec go (prev : Bar) : List Bar → List ℚ
        | [] => []
        | b :: bs => max (b.h - b.l) (max |b.h - prev.c| |b.l - prev.c|) :: go b bs
      (b0.h - b0.l) :: go b0 rest

/-- Wilder-smoothed ATR value at index `i ≥ period` (the source's loop state):
`atrVal p tr period = mean(tr[1..p])` and
`atrVal (i+1) = atrVal i · (p−1)/p + tr[i+1]/p` for `i+1 > p`. -/
def atrVal (tr : List ℚ) (p : ℕ) : ℕ → ℚ
  | 0 => qmean ((tr.drop 1).take p)
  | i + 1 =>
      if i + 1 ≤ p then qmean ((tr.drop 1).take p)
      else atrVal tr p i * ((p : ℚ) - 1) / p + tr.getD (i + 1) 0 / p

/-- `calculate_atr`: NaN below `period`, seeded with the mean of
`TR₁..TR_p`, then Wilder smoothing; `ValueError` when fewer than
`period+1` bars are supplied. -/
def calculate_atr (bars : List Bar) (period : ℕ) : Except String (List (Option ℚ)) :=
  if bars.length < period + 1 then .error "InsufficientData"
  else
    let tr := trueRanges bars
    .ok ((List.range bars.length).map fun i =>
      if i < period then none else some (atrVal tr period i))

/-- `calculate_rvol`: relative volume `vᵢ / mean(positive volumes in window)`;
NaN before index `period−1`, for non-positive current volume, when fewer than
half the window is positive, or when the window mean is not positive. -/
def calculate_rvol (bars : List Bar) (period : ℕ) : List (Option ℚ) :=
  let volumes := bars.map (·.v)
  (List.range bars.length).map fun i =>
    if i + 1 < period then none
    else if volumes.getD i 0 ≤ 0 then none
    else
      let window := (volumes.drop (i + 1 - period)).take period
      let valid := window.filter (fun v => decide (0 < v))
      if (valid.length : ℚ) < (period : ℚ) * (1 / 2) then none
      else if 0 < qmean valid then some (volumes.getD i 0 / qmean valid)
      else none

/-- `calculate_wick_ratios`: `(upper, lower)` wick fractions of the bar range;
`(0.5, 0.5)` for a non-positive range. -/
def calculate_wick_ratios (bar : Bar) : ℚ × ℚ :=
  let range := bar.h - bar.l
  if range ≤ 0 then (1 / 2, 1 / 2)
  else if bar.o ≤ bar.c then ((bar.h - bar.c) / range, (bar.o - bar.l) / range)
  else ((bar.h - bar.o) / range, (bar.c - bar.l) / range)

/-- `calculate_efficiency`: `(max(c−o,0)/v, max(o−c,0)/v)`, `(0,0)` for `v ≤ 0`. -/
def calculate_efficiency (bar : Bar) (volume : ℚ) : ℚ × ℚ :=
  if volume ≤ 0 then (0, 0)
  else (max (bar.c - bar.o) 0 / volume, max (bar.o - bar.c) 0 / volume)

/-- `calculate_effort_result`: effort is RVOL verbatim; result is
`(h−l)/ATR` where ATR is present and positive, NaN otherwise. -/
def calculate_effort_result (bars : List Bar) (rvol : List (Option ℚ))
    (atr : List (Option ℚ)) : List (Option ℚ) × List (Option ℚ) :=
  let result := (List.range bars.length).map fun i =>
    match atr.getD i none with
    | none => none
    | some a =>
        if a ≤ 0 then none
        else
          match bars.getD i ⟨0, 0, 0, 0, 0, 0⟩ with
          | b => some ((b.h - b.l) / a)
  (rvol, result)

/-- The named feature arrays produced by `calculate_features`. -/
structure Features where
  atr : List (Option ℚ)
  rvol : List (Option ℚ)
  effort : List (Option ℚ)
  result : List (Option ℚ)
  wick_up : List ℚ
  wick_low : List ℚ
  up_eff : List ℚ
  down_eff : List ℚ
  close : List ℚ
  high : List ℚ
  low : List ℚ
  volume : List ℚ
  deriving Repr

/-- `calculate_features`: assembles every per-bar feature array; when fewer
than `atr_period+1` bars exist the ATR column falls back to the plain range. -/
def calculate_features (bars : List Bar) (atr_period : ℕ) (volume_period : ℕ) : Features :=
  let atr : List (Option ℚ) :=
    if bars.length ≥ atr_period + 1 then
      match calculate_atr bars atr_period with
      | .ok a => a
      | .error _ => bars.map fun b => some (b.h - b.l)
    else bars.map fun b => some (b.h - b.l)
  let rvol := calculate_rvol bars volume_period
  let er := calculate_effort_result bars rvol atr
  { atr := atr
    rvol := rvol
    effort := er.1
    result := er.2
    wick_up := bars.map fun b => (calculate_wick_ratios b).1
    wick_low := bars.map fun b => (calculate_wick_ratios b).2
    up_eff := bars.map fun b => (calculate_efficiency b b.v).1
    down_eff := bars.map fun b => (calculate_efficiency b b.v).2
    close := bars.map (·.c)
    high := bars.map (·.h)
    low := bars.map (·.l)
    volume := bars.map (·.v) }

/-- Volume-data quality labels. -/
inductive VQLabel
  | reliable
  | partialData
  | unavailable
  deriving Repr, DecidableEq

/-- `get_volume_quality`: label from the fraction of non-NaN RVOL entries. -/
def get_volume_quality (rvol : List (Option ℚ)) : VQLabel :=
  if rvol.length = 0 then .unavailable
  else
    let validRatio : ℚ := ((rvol.filterMap id).length : ℚ) / rvol.length
    if validRatio ≥ 7 / 10 then .reliable
    else if validRatio ≥ 1 / 2 then .partialData
    else .unavailable

/-! ## Structure (`structure.py`) -/

/-- `SwingPoint`: fractal high/low. -/
structure SwingPoint where
  index : ℕ
  price : ℚ
  bar_time : ℤ
  is_high : Bool
  deriving Repr, DecidableEq

/-- `find_swing_points`: bar `i ∈ [n, N−n)` is a swing high when its high
equals the maximum over the window `[i−n, i+n]` (ties count), symmetric for
lows; too-short inputs give empty lists. -/
def find_swing_points (bars : List Bar) (n : ℕ) : List SwingPoint × List SwingPoint :=
  if bars.length < 2 * n + 1 then ([], [])
  else
    let highs := bars.map (·.h)
    let lows := bars.map (·.l)
    let idxs := (List.range bars.length).filter fun i => n ≤ i ∧ i < bars.length - n
    let sh := idxs.filterMap fun i =>
      let window := (highs.drop (i - n)).take (2 * n + 1)
      if highs.getD i 0 = window.foldr max (highs.getD i 0) then
        match bars.getD i ⟨0, 0, 0, 0, 0, 0⟩ with
        | b => some ⟨i, b.h, b.t, true⟩
      else none
    let sl := idxs.filterMap fun i =>
      let window := (lows.drop (i - n)).take (2 * n + 1)
      if lows.getD i 0 = window.foldr min (lows.getD i 0) then
        match bars.getD i ⟨0, 0, 0, 0, 0, 0⟩ with
        | b => some ⟨i, b.l, b.t, false⟩
      else none
    (sh, sl)

/-- Latest (highest-index) point of a nonempty cluster. -/
def latestPoint (p : SwingPoint) (c : List SwingPoint) : SwingPoint :=
  c.foldl (fun best q => if best.index < q.index then q else best) p

/-- One-pass partition of price-sorted points into clusters whose consecutive
prices differ by at most `binWidth` (the source's accumulation loop). -/
def splitClusters (binWidth : ℚ) : List SwingPoint → List (List SwingPoint)
  | [] => []
  | q :: qs =>
      let rec go (cur : List SwingPoint) : List SwingPoint → List (List SwingPoint)
        | [] => [cur.reverse]
        | p :: ps =>
            if p.price - ((cur.headD p).price) ≤ binWidth then go (p :: cur) ps
            else cur.reverse :: go [p] ps
      go [q] qs

/-- Zone built from one cluster (the enhanced-scoring block of
`cluster_zones._cluster_points`). -/
def zoneOfCluster (atr padding : ℚ) (current_bar_index : ℕ) (p : SwingPoint)
    (cluster : List SwingPoint) : Zone :=
  let prices := cluster.map (·.price)
  let zone_low := prices.foldr min p.price - padding
  let zone_high := prices.foldr max p.price + padding
  let touches := cluster.length
  let latest := latestPoint p cluster
  let bars_since : ℤ := if 0 < current_bar_index then (current_bar_index : ℤ) - latest.index else 0
  let tests_score : ℚ := (min touches 5 : ℕ) / 5
  let rejections : ℕ := touches * 4 / 5
  let rejections_score : ℚ := (min rejections 5 : ℕ) / 5
  let reaction_magnitude := atr
  let reaction_score : ℚ := if 0 < atr then min (reaction_magnitude / (2 * atr)) 1 else 0
  let recency_score : ℚ := max (1 - (bars_since : ℚ) / 100) 0
  { low := zone_low
    high := zone_high
    score := roundTo 2 (3 / 10 * tests_score + 3 / 10 * rejections_score +
      1 / 4 * reaction_score + 3 / 20 * recency_score)
    touches := touches
    rejections := rejections
    last_reaction := if 0 < atr then roundTo 2 (reaction_magnitude / atr) else 0
    last_test_time := some latest.bar_time }

/-- Stable descending sort by score (Python `sort(key=score, reverse=True)`). -/
def sortByScoreDesc (zs : List Zone) : List Zone :=
  zs.mergeSort fun a b => decide (b.score ≤ a.score)

/-- `cluster_zones._cluster_points` for one side. -/
def clusterPoints (atr padding bin_width : ℚ) (max_zones current_bar_index : ℕ)
    (points : List SwingPoint) : List Zone :=
  let sorted := points.mergeSort fun a b => decide (a.price ≤ b.price)
  let zones := (splitClusters bin_width sorted).filterMap fun c =>
    match c with
    | [] => none
    | p :: _ => some (zoneOfCluster atr padding current_bar_index p c)
  (sortByScoreDesc zones).take max_zones

/-- `cluster_zones`: supports from swing lows, resistances from swing highs;
empty on non-positive ATR; padding depends on the timeframe string. -/
def cluster_zones (swing_highs swing_lows : List SwingPoint) (atr : ℚ)
    (timeframe : String) (max_zones : ℕ) (current_bar_index : ℕ) : ZoneMap :=
  if atr ≤ 0 then ⟨[], []⟩
  else
    let padding_mult : ℚ :=
      if timeframe = "1m" then 7 / 20
      else if timeframe = "5m" then 2 / 5
      else 1 / 2
    let padding := atr * padding_mult
    let bin_width := atr * (1 / 2)
    { support := clusterPoints atr padding bin_width max_zones current_bar_index swing_lows
      resistance := clusterPoints atr padding bin_width max_zones current_bar_index swing_highs }

/-- Python slice `l[-m:]` (which is the whole list when `m = 0`). -/
def recentOf {α : Type} (m : ℕ) (l : List α) : List α :=
  if m = 0 then l else l.drop (l.length - m)

/-- `classify_regime`: HH/LH/HL/LL counting over the last `m` swings. -/
def classify_regime (swing_highs swing_lows : List SwingPoint) (m : ℕ) : MarketState :=
  if swing_highs.length < 2 ∨ swing_lows.length < 2 then ⟨.range, 1 / 2⟩
  else
    let recent_highs := if swing_highs.length ≥ m then recentOf m swing_highs else swing_highs
    let recent_lows := if swing_lows.length ≥ m then recentOf m swing_lows else swing_lows
    let cmp : List SwingPoint → ℕ × ℕ := fun pts =>
      (pts.zip (pts.drop 1)).foldl
        (fun acc pq => if pq.1.price < pq.2.price then (acc.1 + 1, acc.2)
          else if pq.2.price < pq.1.price then (acc.1, acc.2 + 1) else acc) (0, 0)
    let hc := cmp recent_highs
    let hh_count := hc.1
    let lh_count := hc.2
    let lc := cmp recent_lows
    let hl_count := lc.1
    let ll_count := lc.2
    let total_high : ℕ := max (recent_highs.length - 1) 1
    let total_low : ℕ := max (recent_lows.length - 1) 1
    let total : ℚ := ((total_high + total_low : ℕ) : ℚ)
    let up_score : ℚ := ((hh_count + hl_count : ℕ) : ℚ)
    let down_score : ℚ := ((ll_count + lh_count : ℕ) : ℚ)
    if up_score / total ≥ 3 / 5 then ⟨.uptrend, roundTo 2 (up_score / total)⟩
    else if down_score / total ≥ 3 / 5 then ⟨.downtrend, roundTo 2 (down_score / total)⟩
    else ⟨.range, roundTo 2 (1 - |up_score - down_score| / total)⟩

/-! ## Breakout FSM (`structure.py`, class `BreakoutFSM`) -/

/-- FSM mode tag set (`BreakoutState`). -/
inductive BKState
  | idle
  | attempt
  | confirmed
  | fakeout
  deriving Repr, DecidableEq

/-- FSM thresholds (constructor arguments of `BreakoutFSM`). -/
structure FSMCfg where
  volume_threshold : ℚ := 9 / 5
  result_threshold : ℚ := 3 / 5
  confirm_closes : ℕ := 2
  fakeout_bars : ℤ := 3
  deriving Repr, DecidableEq

/-- Mutable FSM fields. -/
structure FSMSt where
  state : BKState := .idle
  zone : Option Zone := none
  direction : Option Dir := none
  attempt_bar_index : Option ℤ := none
  consecutive_closes : ℕ := 0
  max_volume_seen : ℚ := 0
  max_result_seen : ℚ := 0
  deriving Repr, DecidableEq

/-- `BreakoutFSM.reset` / freshly constructed state. -/
def fsmReset : FSMSt := {}

/-- `_count_factors`: structure + volume + result factor count; a NaN RVOL
contributes nothing. -/
def countFactors (cfg : FSMCfg) (consecutive_closes : ℕ) (rvol : Option ℚ)
    (result : ℚ) : ℕ :=
  (if cfg.confirm_closes ≤ consecutive_closes then 1 else 0) +
  (match rvol with
   | some r => if cfg.volume_threshold ≤ r then 1 else 0
   | none => 0) +
  (if cfg.result_threshold ≤ result then 1 else 0)

/-- `_get_signal_params`: confidence, type and volume quality from the factor
count and the current RVOL. -/
def getSignalParams (cfg : FSMCfg) (factors : ℕ) (rvol : Option ℚ) :
    ℚ × SignalType × VolQ :=
  let vq : VolQ :=
    match rvol with
    | none => .unavailable
    | some r => if cfg.volume_threshold ≤ r then .confirmed else .pending
  if 3 ≤ factors then (17 / 20, .breakout_confirmed, vq)
  else if factors = 2 then (13 / 20, .breakout_attempt, vq)
  else (9 / 20, .breakout_attempt, vq)

/-- `_check_attempt` body for one matched zone. -/
def attemptOn (cfg : FSMCfg) (bar : Bar) (bar_index : ℕ) (zone : Zone) (d : Dir)
    (rvol : Option ℚ) (result : ℚ) : FSMSt × Option Signal :=
  let closesOutside : Bool :=
    match d with
    | .up => decide (zone.high < bar.c)
    | .down => decide (bar.c < zone.low)
  let st : FSMSt :=
    { state := .attempt
      zone := some zone
      direction := some d
      attempt_bar_index := some (bar_index : ℤ)
      consecutive_closes := if closesOutside then 1 else 0
      max_volume_seen := (rvol.getD 0)
      max_result_seen := result }
  let factors := countFactors cfg st.consecutive_closes rvol result
  let params := getSignalParams cfg factors rvol
  (st, some
    { type := params.2.1
      direction := d
      level := match d with | .up => zone.high | .down => zone.low
      confidence := params.1
      bar_time := bar.t
      bar_index := bar_index
      volume_quality := params.2.2 })

/-- `_check_attempt`: scan resistances (up) then supports (down); the first
pierced zone wins. -/
def checkAttempt (cfg : FSMCfg) (bar : Bar) (bar_index : ℕ) (zones : ZoneMap)
    (rvol : Option ℚ) (result : ℚ) : FSMSt × Option Signal :=
  match zones.resistance.find? (fun z => decide (z.high < bar.h)) with
  | some z => attemptOn cfg bar bar_index z .up rvol result
  | none =>
      match zones.support.find? (fun z => decide (bar.l < z.low)) with
      | some z => attemptOn cfg bar bar_index z .down rvol result
      | none => (fsmReset, none)

/-- `_emit_confirmed`. -/
def emitConfirmed (cfg : FSMCfg) (st : FSMSt) (bar : Bar) (bar_index : ℕ) :
    FSMSt × Option Signal :=
  let level :=
    match st.direction, st.zone with
    | some .up, some z => z.high
    | _, some z => z.low
    | _, none => 0
  let vq : VolQ :=
    if cfg.volume_threshold ≤ st.max_volume_seen then .confirmed
    else if 0 < st.max_volume_seen then .pending
    else .unavailable
  ({ st with state := .confirmed }, some
    { type := .breakout_confirmed
      direction := st.direction.getD .up
      level := level
      confidence := 17 / 20
      bar_time := bar.t
      bar_index := bar_index
      volume_quality := vq })

/-- `_emit_fakeout`. -/
def emitFakeout (cfg : FSMCfg) (st : FSMSt) (bar : Bar) (bar_index : ℕ) :
    FSMSt × Option Signal :=
  let level :=
    match st.direction, st.zone with
    | some .up, some z => z.high
    | _, some z => z.low
    | _, none => 0
  let vq : VolQ :=
    if cfg.volume_threshold ≤ st.max_volume_seen then .confirmed
    else if 0 < st.max_volume_seen then .pending
    else .unavailable
  ({ st with state := .fakeout }, some
    { type := .fakeout
      direction := st.direction.getD .up
      level := level
      confidence := 3 / 4
      bar_time := bar.t
      bar_index := bar_index
      volume_quality := vq })

/-- `_check_confirmation`: confirmation / fakeout / timeout logic while in
`ATTEMPT`. -/
def checkConfirmation (cfg : FSMCfg) (st : FSMSt) (bar : Bar) (bar_index : ℕ)
    (rvol : Option ℚ) (result : ℚ) : FSMSt × Option Signal :=
  match st.zone, st.attempt_bar_index with
  | some zone, some attemptIdx =>
      let bars_since : ℤ := (bar_index : ℤ) - attemptIdx
      let st :=
        { st with
          max_volume_seen := match rvol with
            | some r => max st.max_volume_seen r
            | none => st.max_volume_seen
          max_result_seen := max st.max_result_seen result }
      let afterDir : FSMSt × Option Signal :=
        match st.direction with
        | some .up =>
            if zone.high < bar.c then
              let st := { st with consecutive_closes := st.consecutive_closes + 1 }
              let factors := countFactors cfg st.consecutive_closes
                (some st.max_volume_seen) st.max_result_seen
              if 3 ≤ factors then emitConfirmed cfg st bar bar_index
              else if 2 ≤ factors ∧ cfg.confirm_closes ≤ st.consecutive_closes then
                emitConfirmed cfg st bar bar_index
              else (st, none)
            else
              if bars_since ≤ cfg.fakeout_bars then emitFakeout cfg st bar bar_index
              else (fsmReset, none)
        | some .down =>
            if bar.c < zone.low then
              let st := { st with consecutive_closes := st.consecutive_closes + 1 }
              let factors := countFactors cfg st.consecutive_closes
                (some st.max_volume_seen) st.max_result_seen
              if 3 ≤ factors then emitConfirmed cfg st bar bar_index
              else if 2 ≤ factors ∧ cfg.confirm_closes ≤ st.consecutive_closes then
                emitConfirmed cfg st bar bar_index
              else (st, none)
            else
              if bars_since ≤ cfg.fakeout_bars then emitFakeout cfg st bar bar_index
              else (fsmReset, none)
        | none => (st, none)
      match afterDir.2 with
      | some s => (afterDir.1, some s)
      | none =>
          if cfg.fakeout_bars * 2 < bars_since then (fsmReset, none)
          else (afterDir.1, none)
  | _, _ => (fsmReset, none)

/-- `BreakoutFSM.update`: one step of the machine.  `rvol` is NaN-aware;
`result = (h−l)/atr` when `atr > 0`, else `0`. -/
def fsmUpdate (cfg : FSMCfg) (st : FSMSt) (bar : Bar) (bar_index : ℕ)
    (zones : ZoneMap) (rvol : Option ℚ) (atr : ℚ) : FSMSt × Option Signal :=
  let result : ℚ := if 0 < atr then (bar.h - bar.l) / atr else 0
  match st.state with
  | .idle => checkAttempt cfg bar bar_index zones rvol result
  | .attempt => checkConfirmation cfg st bar bar_index rvol result
  | .confirmed => (fsmReset, none)
  | .fakeout => (fsmReset, none)

/-! ## Behavior inference (`behavior.py`) -/

/-- The five Wyckoff phases. -/
inductive BehaviorKind
  | accumulation
  | shakeout
  | markup
  | distribution
  | markdown
  deriving Repr, DecidableEq

/-- String form of a phase, as used inside i18n reason keys. -/
def behaviorStr : BehaviorKind → String
  | .accumulation => "accumulation"
  | .shakeout => "shakeout"
  | .markup => "markup"
  | .distribution => "distribution"
  | .markdown => "markdown"

/-- `ALL_BEHAVIORS`, in source order. -/
def ALL_BEHAVIORS : List BehaviorKind :=
  [.accumulation, .shakeout, .markup, .distribution, .markdown]

/-- `_is_near_zone`: within half the zone width of the zone midpoint. -/
def isNearZone (price : ℚ) (zones : List Zone) : Bool :=
  zones.any fun z => decide (|price - (z.low + z.high) / 2| ≤ (z.high - z.low) * (1 / 2))

/-- `score_accumulation`. -/
def score_accumulation (bars : List Bar) (f : Features) (zones : ZoneMap) : ℚ :=
  let lookback := min 20 bars.length
  if zones.support.isEmpty then 0
  else
    let close_prices := lastSlice lookback f.close
    let rvol := lastSlice lookback f.rvol
    let down_effs := lastSlice lookback f.down_eff
    let wick_lows := lastSlice lookback f.wick_low
    let effort := lastSlice lookback f.effort
    let result := lastSlice lookback f.result
    let current_price := close_prices.getLastD 0
    let t1 : ℚ := if isNearZone current_price zones.support then 1 / 4 else 0
    let near_support_high_vol :=
      ((close_prices.zip rvol).filter fun pr =>
        isNearZone pr.1 zones.support &&
          match pr.2 with
          | some r => decide ((3 : ℚ) / 2 ≤ r)
          | none => false).length
    let t2 : ℚ := if 2 ≤ near_support_high_vol then 1 / 5 else 0
    let absorption_count :=
      (((effort.zip result).zip close_prices).filter fun er =>
        (match er.1.1, er.1.2 with
         | some e, some r => decide ((3 : ℚ) / 2 ≤ e) && decide (r ≤ (3 : ℚ) / 5)
         | _, _ => false) && isNearZone er.2 zones.support).length
    let t3 : ℚ := if 1 ≤ absorption_count then 1 / 4 else 0
    let t4 : ℚ := if qmean down_effs < qmean f.down_eff * (7 / 10) then 3 / 20 else 0
    let t5 : ℚ := if (3 : ℚ) / 10 < qmean wick_lows then 3 / 20 else 0
    t1 + t2 + t3 + t4 + t5

/-- One support zone's contribution to `score_shakeout` (`some s` when the
source's zone loop returns with score `s`). -/
def shakeoutZoneScore (lows closes wick_lows : List ℚ)
    (rvol effort result : List (Option ℚ)) (zone : Zone) : Option ℚ :=
  let n := lows.length
  match (List.range n).find? (fun i =>
      decide (lows.getD i 0 < zone.low) && decide (zone.low ≤ closes.getD i 0)) with
  | some i =>
      some ((7 : ℚ) / 20 +
        (if (2 : ℚ) / 5 < wick_lows.getD i 0 then 1 / 5 else 0) +
        (match rvol.getD i none with
         | some r => if (3 : ℚ) / 2 ≤ r then 1 / 5 else 0
         | none => 0) +
        (match effort.getD i none, result.getD i none with
         | some e, some r =>
             if (3 : ℚ) / 2 ≤ e ∧ r ≤ (3 : ℚ) / 5 then 1 / 10 else 0
         | _, _ => 0))
  | none =>
      match ((List.range n).filter fun i => decide (lows.getD i 0 < zone.low)).getLast? with
      | some sweep =>
          match (List.range' (sweep + 1) (min (sweep + 4) n - (sweep + 1))).find?
              (fun j => decide (zone.low ≤ closes.getD j 0)) with
          | some j =>
              some ((7 : ℚ) / 20 +
                (if j - sweep ≤ 2 then (3 : ℚ) / 20 else 0) +
                (if (3 : ℚ) / 10 < wick_lows.getD sweep 0 then 1 / 5 else 0) +
                (match rvol.getD sweep none with
                 | some r => if (3 : ℚ) / 2 ≤ r then 1 / 5 else 0
                 | none => 0))
          | none => none
      | none => none

/-- `score_shakeout` (lookback 10). -/
def score_shakeout (bars : List Bar) (f : Features) (zones : ZoneMap) : ℚ :=
  let lookback := min 10 bars.length
  if zones.support.isEmpty then 0
  else
    let lows := lastSlice lookback f.low
    let closes := lastSlice lookback f.close
    let rvol := lastSlice lookback f.rvol
    let wick_lows := lastSlice lookback f.wick_low
    let effort := lastSlice lookback f.effort
    let result := lastSlice lookback f.result
    match zones.support.findSome? (shakeoutZoneScore lows closes wick_lows rvol effort result) with
    | some s => s
    | none => 0

/-- `score_markup`'s pullback/advance volume comparison: mean RVOL on bars with
a falling close strictly below 0.8 of the mean on the others. -/
def pullbackVolumeContrast (closes : List ℚ) (rvol : List (Option ℚ)) : Bool :=
  let pairs := (closes.zip (closes.drop 1)).zip (rvol.drop 1)
  let pullback := pairs.filterMap fun pq => if pq.1.2 < pq.1.1 then pq.2 else none
  let advance := pairs.filterMap fun pq => if pq.1.2 < pq.1.1 then none else pq.2
  decide (¬pullback.isEmpty) && decide (¬advance.isEmpty) &&
    decide (qmean pullback < qmean advance * (4 / 5))

/-- `score_markdown`'s bounce/decline volume comparison: mean RVOL on bars with
a rising close strictly below 0.8 of the mean on the others (equal closes count
as declines, mirroring the `>` test in the source). -/
def bounceVolumeContrast (closes : List ℚ) (rvol : List (Option ℚ)) : Bool :=
  let pairs := (closes.zip (closes.drop 1)).zip (rvol.drop 1)
  let bounce := pairs.filterMap fun pq => if pq.1.1 < pq.1.2 then pq.2 else none
  let decline := pairs.filterMap fun pq => if pq.1.1 < pq.1.2 then none else pq.2
  decide (¬bounce.isEmpty) && decide (¬decline.isEmpty) &&
    decide (qmean bounce < qmean decline * (4 / 5))

/-- `score_markup`. -/
def score_markup (bars : List Bar) (f : Features) (ms : MarketState)
    (signals : List Signal) : ℚ :=
  let lookback := 20
  let t1 : ℚ := if signals.any fun s =>
      s.type = .breakout_confirmed && s.direction = .up then 7 / 20 else 0
  let t2 : ℚ := if ms.regime = .uptrend then 1 / 5 * ms.confidence else 0
  let t3 : ℚ :=
    if lookback ≤ bars.length then
      if pullbackVolumeContrast (lastSlice lookback f.close) (lastSlice lookback f.rvol)
      then 1 / 5 else 0
    else 0
  let up_effs := if lookback ≤ bars.length then lastSlice lookback f.up_eff else f.up_eff
  let t4 : ℚ := if 0 < qmean up_effs then 1 / 4 * min (qmean up_effs * 1000) 1 else 0
  t1 + t2 + t3 + t4

/-- `score_distribution`. -/
def score_distribution (bars : List Bar) (f : Features) (zones : ZoneMap) : ℚ :=
  let lookback := min 20 bars.length
  if zones.resistance.isEmpty then 0
  else
    let close_prices := lastSlice lookback f.close
    let rvol := lastSlice lookback f.rvol
    let up_effs := lastSlice lookback f.up_eff
    let wick_ups := lastSlice lookback f.wick_up
    let effort := lastSlice lookback f.effort
    let result := lastSlice lookback f.result
    let current_price := close_prices.getLastD 0
    let t1 : ℚ := if isNearZone current_price zones.resistance then 1 / 4 else 0
    let near_res_high_vol :=
      ((close_prices.zip rvol).filter fun pr =>
        isNearZone pr.1 zones.resistance &&
          match pr.2 with
          | some r => decide ((3 : ℚ) / 2 ≤ r)
          | none => false).length
    let t2 : ℚ := if 2 ≤ near_res_high_vol then 1 / 5 else 0
    let absorption_count :=
      (((effort.zip result).zip close_prices).filter fun er =>
        (match er.1.1, er.1.2 with
         | some e, some r => decide ((3 : ℚ) / 2 ≤ e) && decide (r ≤ (3 : ℚ) / 5)
         | _, _ => false) && isNearZone er.2 zones.resistance).length
    let t3 : ℚ := if 1 ≤ absorption_count then 1 / 4 else 0
    let t4 : ℚ := if qmean up_effs < qmean f.up_eff * (7 / 10) then 3 / 20 else 0
    let t5 : ℚ := if (3 : ℚ) / 10 < qmean wick_ups then 3 / 20 else 0
    t1 + t2 + t3 + t4 + t5

/-- `score_markdown`. -/
def score_markdown (bars : List Bar) (f : Features) (ms : MarketState)
    (signals : List Signal) : ℚ :=
  let lookback := 20
  let t1 : ℚ := if signals.any fun s =>
      s.type = .breakout_confirmed && s.direction = .down then 7 / 20 else 0
  let t2 : ℚ := if ms.regime = .downtrend then 1 / 5 * ms.confidence else 0
  let t3 : ℚ :=
    if lookback ≤ bars.length then
      if bounceVolumeContrast (lastSlice lookback f.close) (lastSlice lookback f.rvol)
      then 1 / 5 else 0
    else 0
  let down_effs := if lookback ≤ bars.length then lastSlice lookback f.down_eff else f.down_eff
  let t4 : ℚ := if 0 < qmean down_effs then 1 / 4 * min (qmean down_effs * 1000) 1 else 0
  t1 + t2 + t3 + t4

/-- Rational rounding carried out inside `ℝ` (`round(float(p), 4)`). -/
noncomputable def roundR (d : ℕ) (x : ℝ) : ℝ := ((round (x * 10 ^ d) : ℤ) : ℝ) / 10 ^ d

/-- Max of a rational list seeded with a default (`np.max` on nonempty input). -/
def maxQ (l : List ℚ) (d : ℚ) : ℚ := l.foldr max d

/-- `scores_to_probabilities`: numerically-stabilised softmax followed by
4-decimal rounding of each probability. -/
noncomputable def scores_to_probabilities (scores : List (BehaviorKind × ℚ)) :
    List (BehaviorKind × ℝ) :=
  match scores with
  | [] => ALL_BEHAVIORS.map fun b => (b, (1 / 5 : ℝ))
  | s :: ss =>
      let M : ℚ := maxQ ((s :: ss).map Prod.snd) s.2
      let Z : ℝ := ((s :: ss).map fun p => Real.exp (((p.2 - M : ℚ) : ℝ))).sum
      (s :: ss).map fun p => (p.1, roundR 4 (Real.exp (((p.2 - M : ℚ) : ℝ)) / Z))

open Classical in
/-- Python `max(keys, key=probabilities.get)`: the first key attaining the
maximal value. -/
noncomputable def argmaxKey (l : List (BehaviorKind × ℝ)) (d : BehaviorKind) : BehaviorKind :=
  match l with
  | [] => d
  | p :: ps => (ps.foldl (fun best q => if best.2 < q.2 then q else best) p).1

/-- Evidence type tag set. -/
inductive EvidenceType
  | VOLUME_SPIKE
  | REJECTION
  | SWEEP
  | ABSORPTION
  | BREAKOUT
  deriving Repr, DecidableEq

/-- Evidence severity tag set. -/
inductive Sev3
  | low
  | med
  | high
  deriving Repr, DecidableEq

/-- `Evidence` record. -/
structure Evidence where
  type : EvidenceType
  behavior : BehaviorKind
  severity : Sev3
  bar_time : ℤ
  bar_index : ℕ
  metrics : List (String × ℚ)
  note : String
  deriving Repr, DecidableEq

/-- `generate_evidence._get_severity`. -/
def evidenceSeverity (rvol wick_ratio : ℚ) : Sev3 :=
  if 2 ≤ rvol ∨ (1 : ℚ) / 2 ≤ wick_ratio then .high
  else if (3 : ℚ) / 2 ≤ rvol ∨ (3 : ℚ) / 10 ≤ wick_ratio then .med
  else .low

/-- `generate_evidence._make_metrics`. -/
def makeMetrics (rvol wick_ratio : ℚ) (effort result : Option ℚ) : List (String × ℚ) :=
  [("rvol", roundTo 2 rvol)] ++
  (if 0 < wick_ratio then [("wick_ratio", roundTo 2 wick_ratio)] else []) ++
  (match effort with | some e => [("effort", roundTo 2 e)] | none => []) ++
  (match result with | some r => [("result", roundTo 2 r)] | none => [])

/-- `generate_evidence`: up to three items supporting the dominant phase. -/
def generate_evidence (bars : List Bar) (dominant : BehaviorKind) (f : Features)
    (zones : ZoneMap) : List Evidence :=
  match bars.getLast? with
  | none => []
  | some current_bar =>
      let current_bar_index := bars.length - 1
      let current_rvol : ℚ := (f.rvol.getLastD none).getD 0
      let current_wick_up := f.wick_up.getLastD 0
      let current_wick_low := f.wick_low.getLastD 0
      let current_effort := f.effort.getLastD none
      let current_result := f.result.getLastD none
      let absorptionHit : Bool :=
        match current_effort, current_result with
        | some e, some r => decide ((3 : ℚ) / 2 ≤ e) && decide (r ≤ (3 : ℚ) / 5)
        | _, _ => false
      let mk (ty : EvidenceType) (sev : Sev3) (metrics : List (String × ℚ))
          (note : String) : Evidence :=
        ⟨ty, dominant, sev, current_bar.t, current_bar_index, metrics, note⟩
      let items : List Evidence :=
        match dominant with
        | .accumulation =>
            (if absorptionHit then
              [mk .ABSORPTION .high (makeMetrics current_rvol 0 current_effort current_result)
                "evidence.accumulation.absorption"] else []) ++
            (if (3 : ℚ) / 2 ≤ current_rvol then
              [mk .VOLUME_SPIKE (evidenceSeverity current_rvol 0)
                (makeMetrics current_rvol 0 none none)
                "evidence.accumulation.high_volume_at_support"] else []) ++
            (if (3 : ℚ) / 10 < current_wick_low then
              [mk .REJECTION (evidenceSeverity current_rvol current_wick_low)
                (makeMetrics current_rvol current_wick_low none none)
                "evidence.accumulation.demand_wick"] else [])
        | .shakeout =>
            (if ¬zones.support.isEmpty then
              [mk .SWEEP .high
                (makeMetrics current_rvol current_wick_low current_effort current_result)
                "evidence.shakeout.sweep_and_reclaim"] else []) ++
            (if (2 : ℚ) / 5 < current_wick_low then
              [mk .REJECTION (evidenceSeverity current_rvol current_wick_low)
                (makeMetrics current_rvol current_wick_low none none)
                "evidence.shakeout.long_lower_wick"] else []) ++
            (if (3 : ℚ) / 2 ≤ current_rvol then
              [mk .VOLUME_SPIKE (evidenceSeverity current_rvol 0)
                (makeMetrics current_rvol 0 none none)
                "evidence.shakeout.high_volume_sweep"] else [])
        | .markup =>
            [mk .BREAKOUT .med (makeMetrics current_rvol 0 current_effort current_result)
              "evidence.markup.uptrend_continuation"] ++
            (if (6 : ℚ) / 5 ≤ current_rvol then
              [mk .VOLUME_SPIKE (evidenceSeverity current_rvol 0)
                (makeMetrics current_rvol 0 none none)
                "evidence.markup.volume_confirmation"] else [])
        | .distribution =>
            (if absorptionHit then
              [mk .ABSORPTION .high (makeMetrics current_rvol 0 current_effort current_result)
                "evidence.distribution.absorption"] else []) ++
            (if (3 : ℚ) / 2 ≤ current_rvol then
              [mk .VOLUME_SPIKE (evidenceSeverity current_rvol 0)
                (makeMetrics current_rvol 0 none none)
                "evidence.distribution.high_volume_at_resistance"] else []) ++
            (if (3 : ℚ) / 10 < current_wick_up then
              [mk .REJECTION (evidenceSeverity current_rvol current_wick_up)
                (makeMetrics current_rvol current_wick_up none none)
                "evidence.distribution.rejection_wick"] else [])
        | .markdown =>
            [mk .BREAKOUT .med (makeMetrics current_rvol 0 current_effort current_result)
              "evidence.markdown.downtrend_continuation"] ++
            (if (6 : ℚ) / 5 ≤ current_rvol then
              [mk .VOLUME_SPIKE (evidenceSeverity current_rvol 0)
                (makeMetrics current_rvol 0 none none)
                "evidence.markdown.volume_confirmation"] else [])
      items.take 3

/-- `Behavior` record. -/
structure Behavior where
  probabilities : List (BehaviorKind × ℝ)
  dominant : BehaviorKind
  evidence : List Evidence

/-- The raw score dictionary of `infer_behavior`, in source order. -/
def behaviorScores (bars : List Bar) (f : Features) (zones : ZoneMap)
    (ms : MarketState) (signals : List Signal) : List (BehaviorKind × ℚ) :=
  [(.accumulation, score_accumulation bars f zones),
   (.shakeout, score_shakeout bars f zones),
   (.markup, score_markup bars f ms signals),
   (.distribution, score_distribution bars f zones),
   (.markdown, score_markdown bars f ms signals)]

/-- `infer_behavior`: scores → softmax probabilities → dominant → evidence. -/
noncomputable def infer_behavior (bars : List Bar) (f : Features) (zones : ZoneMap)
    (ms : MarketState) (signals : List Signal) : Behavior :=
  let probabilities := scores_to_probabilities (behaviorScores bars f zones ms signals)
  let dominant := argmaxKey probabilities .accumulation
  { probabilities := probabilities
    dominant := dominant
    evidence := generate_evidence bars dominant f zones }

/-! ## Timeline (`timeline.py`) -/

/-- Timeline event severity tag set. -/
inductive Severity
  | info
  | warning
  | critical
  deriving Repr, DecidableEq

/-- Timeline event type tag set (hard and soft events; `breakdown_confirmed`
appears in the hard-severity mapping but is never produced). -/
inductive EventType
  | initialized
  | regime_change
  | behavior_shift
  | prob_up (b : BehaviorKind)
  | prob_down (b : BehaviorKind)
  | breakout_attempt
  | breakout_confirmed
  | breakdown_confirmed
  | fakeout_detected
  | zone_accepted
  | zone_rejected
  | zone_tested
  | zone_approached
  | spring
  | upthrust
  | absorption_clue
  | volume_spike
  | volume_dryup
  | new_swing_high
  | new_swing_low
  deriving Repr, DecidableEq

/-- `TimelineEvent` record. -/
structure TimelineEvent where
  ts : ℤ
  event_type : EventType
  delta : ℝ
  reason : String
  bar_index : ℤ := -1
  severity : Severity := .info

/-- `TimelineState`: snapshot used for change detection. -/
structure TimelineState where
  timestamp : ℤ
  regime : Regime
  dominant_behavior : BehaviorKind
  behavior_probabilities : List (BehaviorKind × ℝ)
  breakout_state : BKState
  active_signals : List Signal
  last_swing_high_idx : ℤ := -1
  last_swing_low_idx : ℤ := -1

/-- A soft event before it is wrapped into a `TimelineEvent`:
`(event_type, delta, reason, severity)`. -/
abbrev SoftEvent := EventType × ℚ × String × Severity

/-- `generate_soft_events`: zone interactions, Wyckoff micro-patterns, VSA
absorption, volume extremes and fresh swing points for one bar. -/
def generate_soft_events (bar : Bar) (bar_idx : ℕ) (zones : ZoneMap) (atr : ℚ)
    (rvol effort result : Option ℚ) (swing_highs swing_lows : List (ℕ × ℚ))
    (previous_state : Option TimelineState) : List SoftEvent :=
  let close := bar.c
  let high := bar.h
  let low := bar.l
  let approach_threshold := (1 : ℚ) / 2 * atr
  let touch_threshold := (3 : ℚ) / 20 * atr
  let resistanceEvents : List SoftEvent :=
    ((zones.resistance.take 2).findSome? fun zone =>
      let zone_mid := (zone.low + zone.high) / 2
      let dist := zone.low - high
      if zone.high < close then
        some (.zone_accepted, zone_mid, "event.zone.resistance_accepted", .warning)
      else if zone.low ≤ high ∧ close < zone.low then
        some (.zone_rejected, zone_mid, "event.zone.resistance_rejected", .info)
      else if dist ≤ touch_threshold ∧ -touch_threshold ≤ dist then
        some (.zone_tested, zone_mid, "event.zone.resistance_tested", .info)
      else if 0 < dist ∧ dist ≤ approach_threshold then
        some (.zone_approached, zone_mid, "event.zone.resistance_approached", .info)
      else none).toList
  let supportEvents : List SoftEvent :=
    ((zones.support.take 2).findSome? fun zone =>
      let zone_mid := (zone.low + zone.high) / 2
      let dist := low - zone.high
      if close < zone.low then
        some (.zone_accepted, zone_mid, "event.zone.support_accepted", .warning)
      else if low ≤ zone.high ∧ zone.high < close then
        some (.zone_rejected, zone_mid, "event.zone.support_rejected", .info)
      else if -touch_threshold ≤ dist ∧ dist ≤ touch_threshold then
        some (.zone_tested, zone_mid, "event.zone.support_tested", .info)
      else if dist < 0 ∧ -approach_threshold ≤ dist then
        some (.zone_approached, zone_mid, "event.zone.support_approached", .info)
      else none).toList
  let bar_range := high - low
  let wyckoffEvents : List SoftEvent :=
    if 0 < bar_range then
      let upper_wick := high - max bar.o close
      let lower_wick := min bar.o close - low
      (((zones.support.take 2).findSome? fun zone =>
        if low < zone.low ∧ zone.low ≤ close ∧ (2 : ℚ) / 5 ≤ lower_wick / bar_range then
          some ((.spring, zone.low, "event.wyckoff.spring", .critical) : SoftEvent)
        else none).toList) ++
      (((zones.resistance.take 2).findSome? fun zone =>
        if zone.high < high ∧ close ≤ zone.high ∧ (2 : ℚ) / 5 ≤ upper_wick / bar_range then
          some ((.upthrust, zone.high, "event.wyckoff.upthrust", .critical) : SoftEvent)
        else none).toList)
    else []
  let absorptionEvents : List SoftEvent :=
    match effort, result with
    | some e, some r =>
        if (3 : ℚ) / 2 ≤ e ∧ r ≤ (3 : ℚ) / 5 then
          [(.absorption_clue, e, "event.vsa.absorption", .warning)]
        else []
    | _, _ => []
  let volumeEvents : List SoftEvent :=
    match rvol with
    | some r =>
        if 2 ≤ r then [(.volume_spike, r, "event.volume.spike", .warning)]
        else if r ≤ 1 / 2 then [(.volume_dryup, r, "event.volume.dryup", .info)]
        else []
    | none => []
  let swingHighEvents : List SoftEvent :=
    match swing_highs.getLast?, previous_state with
    | some latest, some ps =>
        if ps.last_swing_high_idx < (latest.1 : ℤ) ∧ (bar_idx : ℤ) - 5 ≤ (latest.1 : ℤ) then
          [(.new_swing_high, latest.2, "event.swing.new_high", .info)]
        else []
    | _, _ => []
  let swingLowEvents : List SoftEvent :=
    match swing_lows.getLast?, previous_state with
    | some latest, some ps =>
        if ps.last_swing_low_idx < (latest.1 : ℤ) ∧ (bar_idx : ℤ) - 5 ≤ (latest.1 : ℤ) then
          [(.new_swing_low, latest.2, "event.swing.new_low", .info)]
        else []
    | _, _ => []
  resistanceEvents ++ supportEvents ++ wyckoffEvents ++ absorptionEvents ++
    volumeEvents ++ swingHighEvents ++ swingLowEvents

/-- Dictionary lookup `probabilities.get(b, 0.0)`. -/
noncomputable def lookupProb (l : List (BehaviorKind × ℝ)) (b : BehaviorKind) : ℝ :=
  match l.find? (fun p => p.1 = b) with
  | some p => p.2
  | none => 0

open Classical in
/-- `TimelineManager.should_emit_event`: the hard events triggered by the
differences between two state snapshots. -/
noncomputable def shouldEmitEvent (old : Option TimelineState) (new : TimelineState)
    (threshold : ℝ) : List (EventType × ℝ × String) :=
  match old with
  | none =>
      [(.initialized, 0,
        "event.initialized." ++ regimeStr new.regime ++ "_" ++
          behaviorStr new.dominant_behavior)]
  | some o =>
      (if o.regime ≠ new.regime then
        [(.regime_change, (0 : ℝ),
          "event.regime_change." ++ regimeStr o.regime ++ "_to_" ++ regimeStr new.regime)]
       else []) ++
      (if o.dominant_behavior ≠ new.dominant_behavior then
        [(.behavior_shift, (0 : ℝ),
          "event.behavior_shift." ++ behaviorStr o.dominant_behavior ++ "_to_" ++
            behaviorStr new.dominant_behavior)]
       else []) ++
      (new.behavior_probabilities.filterMap fun p =>
        let delta := p.2 - lookupProb o.behavior_probabilities p.1
        if threshold ≤ |delta| then
          if 0 < delta then
            some (.prob_up p.1, delta, "event.probability." ++ behaviorStr p.1 ++ "_up")
          else
            some (.prob_down p.1, delta, "event.probability." ++ behaviorStr p.1 ++ "_down")
        else none) ++
      (if o.breakout_state ≠ new.breakout_state then
        match new.breakout_state with
        | .attempt => [(.breakout_attempt, (0 : ℝ), "event.breakout.attempt")]
        | .confirmed => [(.breakout_confirmed, (0 : ℝ), "event.breakout.confirmed")]
        | .fakeout => [(.fakeout_detected, (0 : ℝ), "event.breakout.fakeout")]
        | .idle => []
       else [])

/-- Hard-event severity mapping of `TimelineManager.update`. -/
def hardSeverity (t : EventType) : Severity :=
  match t with
  | .regime_change | .breakout_confirmed | .breakdown_confirmed => .critical
  | .behavior_shift | .fakeout_detected => .warning
  | _ => .info

/-- `TimelineManager` mutable fields. -/
structure TLM where
  previous_state : Option TimelineState := none
  events : List TimelineEvent := []
  probability_threshold : ℝ
  max_events : ℕ := 50

/-- `TimelineManager.update`: returns the updated manager and the newly
created events (hard events always; at most two soft events, and only when no
hard event fired). -/
noncomputable def tlmUpdate (m : TLM) (timestamp : ℤ) (ms : MarketState)
    (behavior : Behavior) (breakout_state : BKState) (signals : List Signal)
    (bar : Bar) (bar_idx : ℕ) (zones : ZoneMap) (atr : ℚ) (rvol : Option ℚ)
    (effort result : Option ℚ) (swing_highs swing_lows : List (ℕ × ℚ)) :
    TLM × List TimelineEvent :=
  let new_state : TimelineState :=
    { timestamp := timestamp
      regime := ms.regime
      dominant_behavior := behavior.dominant
      behavior_probabilities := behavior.probabilities
      breakout_state := breakout_state
      active_signals := signals
      last_swing_high_idx := match swing_highs.getLast? with
        | some p => (p.1 : ℤ)
        | none => -1
      last_swing_low_idx := match swing_lows.getLast? with
        | some p => (p.1 : ℤ)
        | none => -1 }
  let hard := shouldEmitEvent m.previous_state new_state m.probability_threshold
  let soft :=
    if 0 < atr then
      generate_soft_events bar bar_idx zones atr rvol effort result
        swing_highs swing_lows m.previous_state
    else []
  let hardEvents : List TimelineEvent := hard.map fun e =>
    { ts := timestamp
      event_type := e.1
      delta := roundR 4 e.2.1
      reason := e.2.2
      bar_index := (bar_idx : ℤ)
      severity := hardSeverity e.1 }
  let softEvents : List TimelineEvent :=
    if hard.isEmpty then
      (soft.take 2).map fun e =>
        { ts := timestamp
          event_type := e.1
          delta := ((roundTo 4 e.2.1 : ℚ) : ℝ)
          reason := e.2.2.1
          bar_index := (bar_idx : ℤ)
          severity := e.2.2.2 }
    else []
  let newEvents := hardEvents ++ softEvents
  let allEvents := m.events ++ newEvents
  let trimmed := if m.max_events < allEvents.length then lastSlice m.max_events allEvents
    else allEvents
  ({ m with previous_state := some new_state, events := trimmed }, newEvents)

/-- `TimelineManager.get_events(limit)`: newest first, truncated (a limit of
`0` is falsy in Python and means "no truncation"). -/
def tlmGetEvents (m : TLM) (limit : ℕ) : List TimelineEvent :=
  if limit ≠ 0 then m.events.reverse.take limit else m.events.reverse

/-! ## Extended hours context (`extended_hours.py`, consumed fields only) -/

/-- `EHLevels`: key extended-hours price levels. -/
structure EHLevels where
  yc : ℚ
  yh : ℚ
  yl : ℚ
  pmh : Option ℚ := none
  pml : Option ℚ := none
  ahh : Option ℚ := none
  ahl : Option ℚ := none
  gap : ℚ := 0
  deriving Repr, DecidableEq

/-- `EHContext`: the fields the analysis core reads (`levels` for zone
injection, `premarket_regime` plus `levels.gap`/`levels.yc` for the playbook). -/
structure EHContext where
  levels : EHLevels
  premarket_regime : String
  premarket_bias : String := "neutral"
  regime_confidence : ℚ := 0
  deriving Repr, DecidableEq

/-- The EH levels that exist in a context: `YC, YH, YL` always, then
`PMH, PML, AHH, AHL` when present. -/
def ehLevelList (levels : EHLevels) : List ℚ :=
  [levels.yc, levels.yh, levels.yl] ++ levels.pmh.toList ++
    levels.pml.toList ++ levels.ahh.toList ++ levels.ahl.toList

/-- The very-narrow pseudo-zone of one EH level (half a tick wide, static
score 0.95). -/
def ehPseudoZone (p : ℚ) : Zone :=
  { low := p - 1 / 400, high := p + 1 / 400, score := 19 / 20, touches := 1 }

/-- Modelled from the spec: `inject_eh_levels_as_zones` is imported by
`analyze.py` from `structure.py` but its definition is missing from the
provided sources; only its import and call site exist.  Per the spec
(§4.2, EH-level injection): "inject `YC, YH, YL` and (if present)
`PMH, PML, AHH, AHL` as very-narrow (approximately half-tick) pseudo-zones
into whichever side they sit relative to the current price, marked with a
high static score so they sort near the top.  They participate in C3 and C6
exactly like other zones."  Here the pseudo-zone is half a tick (0.005) wide
and carries the static score 0.95; each side is then re-sorted by descending
score.  The `atr` argument mirrors the call site's signature. -/
def inject_eh_levels_as_zones (zones : ZoneMap) (levels : EHLevels)
    (current_price : ℚ) (_atr : ℚ) : ZoneMap :=
  let below := ((ehLevelList levels).filter fun p => decide (p < current_price)).map ehPseudoZone
  let above := ((ehLevelList levels).filter fun p => decide (¬p < current_price)).map ehPseudoZone
  { support := sortByScoreDesc (zones.support ++ below)
    resistance := sortByScoreDesc (zones.resistance ++ above) }

/-! ## Playbook (`playbook.py`) -/

/-- Playbook plan condition keys (`condition.*`). -/
inductive Condition
  | pullback_to_support
  | breakout_continuation
  | resistance_rejection
  | breakdown_continuation
  | support_bounce
  | resistance_fade
  | gap_fill_short
  | gap_fill_long
  deriving Repr, DecidableEq

/-- Playbook risk keys (`risk.*`). -/
inductive RiskKey
  | trend_continuation
  | false_breakout
  | reversal
  | false_breakdown
  | range_break
  | gap_continuation
  deriving Repr, DecidableEq

/-- `PlaybookPlan` record. -/
structure PlaybookPlan where
  name : String
  condition : Condition
  level : ℚ
  target : ℚ
  invalidation : ℚ
  risk : RiskKey
  deriving Repr, DecidableEq

/-- `_calculate_target`. -/
def calculateTarget (entry : ℚ) (isLong : Bool) (atr mult : ℚ) : ℚ :=
  if isLong then roundTo 2 (entry + atr * mult) else roundTo 2 (entry - atr * mult)

/-- `_calculate_invalidation`. -/
def calculateInvalidation (entry : ℚ) (isLong : Bool) (atr mult : ℚ) : ℚ :=
  if isLong then roundTo 2 (entry - atr * mult) else roundTo 2 (entry + atr * mult)

/-- `_get_nearest_zone_above`: among zones with `low > price`, the first one
with minimal `low`. -/
def nearestZoneAbove (price : ℚ) (zones : List Zone) : Option Zone :=
  match zones.filter (fun z => decide (price < z.low)) with
  | [] => none
  | z :: zs => some (zs.foldl (fun best q => if q.low < best.low then q else best) z)

/-- `_get_nearest_zone_below`: among zones with `high < price`, the first one
with maximal `high`. -/
def nearestZoneBelow (price : ℚ) (zones : List Zone) : Option Zone :=
  match zones.filter (fun z => decide (z.high < price)) with
  | [] => none
  | z :: zs => some (zs.foldl (fun best q => if best.high < q.high then q else best) z)

/-- The source's `"breakout" in plan.condition or "breakdown" in plan.condition`
substring test, evaluated on the closed condition-key set. -/
def conditionMentionsBreak (c : Condition) : Bool :=
  c = .breakout_continuation || c = .breakdown_continuation

/-- `generate_playbook`: regime-dependent plan templates with extended-hours
modulation. -/
def generate_playbook (ms : MarketState) (zones : ZoneMap) (_signals : List Signal)
    (atr current_price : ℚ) (eh : Option EHContext) : List PlaybookPlan :=
  if atr ≤ 0 then []
  else
    let base : List PlaybookPlan :=
      match ms.regime with
      | .uptrend =>
          (match nearestZoneBelow current_price zones.support with
           | some ns =>
               let entry := ns.high
               let target0 := calculateTarget entry true atr 2
               let invalidation := calculateInvalidation entry true atr (1 / 2)
               let target :=
                 match nearestZoneAbove current_price zones.resistance with
                 | some nr => nr.low
                 | none => target0
               [{ name := "Plan A", condition := .pullback_to_support,
                  level := roundTo 2 entry, target := roundTo 2 target,
                  invalidation := roundTo 2 invalidation, risk := .trend_continuation }]
           | none => []) ++
          (match nearestZoneAbove current_price zones.resistance with
           | some nr =>
               let entry := nr.high
               let target := calculateTarget entry true atr (3 / 2)
               [{ name := "Plan B", condition := .breakout_continuation,
                  level := roundTo 2 entry, target := roundTo 2 target,
                  invalidation := roundTo 2 nr.low, risk := .false_breakout }]
           | none => [])
      | .downtrend =>
          (match nearestZoneAbove current_price zones.resistance with
           | some nr =>
               let entry := nr.low
               let target0 := calculateTarget entry false atr 2
               let invalidation := calculateInvalidation entry false atr (1 / 2)
               let target :=
                 match nearestZoneBelow current_price zones.support with
                 | some ns => ns.high
                 | none => target0
               [{ name := "Plan A", condition := .resistance_rejection,
                  level := roundTo 2 entry, target := roundTo 2 target,
                  invalidation := roundTo 2 invalidation, risk := .reversal }]
           | none => []) ++
          (match nearestZoneBelow current_price zones.support with
           | some ns =>
               let entry := ns.low
               let target := calculateTarget entry false atr (3 / 2)
               [{ name := "Plan B", condition := .breakdown_continuation,
                  level := roundTo 2 entry, target := roundTo 2 target,
                  invalidation := roundTo 2 ns.high, risk := .false_breakdown }]
           | none => [])
      | .range =>
          let nearest_support := nearestZoneBelow current_price zones.support
          let nearest_resistance := nearestZoneAbove current_price zones.resistance
          (match nearest_support with
           | some ns =>
               let entry := ns.high
               let target :=
                 match nearest_resistance with
                 | some nr => nr.low
                 | none => calculateTarget entry true atr 2
               let invalidation := ns.low - atr * (1 / 2)
               [{ name := "Plan A", condition := .support_bounce,
                  level := roundTo 2 entry, target := roundTo 2 target,
                  invalidation := roundTo 2 invalidation, risk := .range_break }]
           | none => []) ++
          (match nearest_resistance with
           | some nr =>
               let entry := nr.low
               let target :=
                 match nearest_support with
                 | some ns => ns.high
                 | none => calculateTarget entry false atr 2
               let invalidation := nr.high + atr * (1 / 2)
               [{ name := "Plan B", condition := .resistance_fade,
                  level := roundTo 2 entry, target := roundTo 2 target,
                  invalidation := roundTo 2 invalidation, risk := .range_break }]
           | none => [])
    match eh with
    | none => base
    | some ctx =>
        if ctx.premarket_regime = "gap_fill_bias" ∧ atr * (1 / 2) < |ctx.levels.gap| then
          base ++
            (if 0 < ctx.levels.gap then
              [{ name := "Plan EH", condition := .gap_fill_short,
                 level := roundTo 2 current_price, target := roundTo 2 ctx.levels.yc,
                 invalidation := roundTo 2 (current_price + atr * (1 / 2)),
                 risk := .gap_continuation }]
            else
              [{ name := "Plan EH", condition := .gap_fill_long,
                 level := roundTo 2 current_price, target := roundTo 2 ctx.levels.yc,
                 invalidation := roundTo 2 (current_price - atr * (1 / 2)),
                 risk := .gap_continuation }])
        else if ctx.premarket_regime = "gap_and_go" then
          base.map fun plan =>
            if conditionMentionsBreak plan.condition then { plan with name := "Plan A (EH)" }
            else plan
        else base

/-! ## Orchestrator (`analyze.py`) -/

/-- `AnalysisParams` with its defaults. -/
structure AnalysisParams where
  atr_period : ℕ := 14
  volume_period : ℕ := 30
  swing_n : ℕ := 4
  regime_m : ℕ := 6
  max_zones : ℕ := 5
  volume_threshold : ℚ := 9 / 5
  result_threshold : ℚ := 3 / 5
  confirm_closes : ℕ := 2
  fakeout_bars : ℤ := 3
  behavior_lookback : ℕ := 20
  probability_threshold : ℚ := 3 / 25
  deriving Repr, DecidableEq

/-- Default parameter record (`AnalysisParams()`). -/
def defaultParams : AnalysisParams := {}

/-- FSM thresholds taken from the analysis parameters
(`create_initial_state`). -/
def fsmCfgOf (p : AnalysisParams) : FSMCfg :=
  ⟨p.volume_threshold, p.result_threshold, p.confirm_closes, p.fakeout_bars⟩

/-- `AnalysisState`: the mutable state of incremental mode. -/
structure AnalysisState where
  fsmCfg : FSMCfg
  fsm : FSMSt
  tlm : TLM

/-- `create_initial_state`. -/
noncomputable def create_initial_state (p : AnalysisParams) : AnalysisState :=
  ⟨fsmCfgOf p, fsmReset, { probability_threshold := (p.probability_threshold : ℝ) }⟩

/-- `_detect_data_gaps`: true when some inter-bar delta exceeds the
timeframe-dependent threshold (in seconds). -/
def detect_data_gaps (bars : List Bar) (timeframe : String) : Bool :=
  if bars.length < 2 then false
  else
    let threshold : ℤ :=
      if timeframe = "1m" then 2 * 60
      else if timeframe = "5m" then 10 * 60
      else 3 * 24 * 60 * 60
    (bars.zip (bars.drop 1)).any fun pq => decide (threshold < pq.2.t - pq.1.t)

/-- `AnalysisReport` record. -/
structure AnalysisReport where
  ticker : String
  tf : String
  generated_at : ℤ
  bar_count : ℕ
  data_gaps : Bool
  volume_quality : VQLabel
  market_state : MarketState
  zones : ZoneMap
  signals : List Signal
  behavior : Behavior
  timeline : List TimelineEvent
  playbook : List PlaybookPlan

/-- Minimum bar count demanded by `analyze_market` (`atr_period + 1`). -/
def minRequired (p : AnalysisParams) : ℕ := p.atr_period + 1

/-- Step 2 of the orchestrator: the feature arrays. -/
def featuresOf (bars : List Bar) (p : AnalysisParams) : Features :=
  calculate_features bars p.atr_period p.volume_period

/-- The orchestrator's `current_atr` (last ATR, falling back to the last
bar's range when NaN). -/
def currentAtrOf (bars : List Bar) (p : AnalysisParams) : ℚ :=
  let f := featuresOf bars p
  match f.atr.getLastD none with
  | some a => a
  | none => f.high.getLastD 0 - f.low.getLastD 0

/-- Step 4: the swing points. -/
def swingsOf (bars : List Bar) (p : AnalysisParams) : List SwingPoint × List SwingPoint :=
  find_swing_points bars p.swing_n

/-- Step 5: the clustered zones (before EH injection). -/
def clusteredZonesOf (bars : List Bar) (p : AnalysisParams) (tf : String) : ZoneMap :=
  cluster_zones (swingsOf bars p).1 (swingsOf bars p).2 (currentAtrOf bars p) tf
    p.max_zones (bars.length - 1)

/-- The orchestrator's `current_price` (last close). -/
def currentPriceOf (bars : List Bar) (p : AnalysisParams) : ℚ :=
  (featuresOf bars p).close.getLastD 0

/-- Step 5b: the zones actually consumed downstream — EH pseudo-zones are
injected whenever an EH context is supplied. -/
def zonesOf (bars : List Bar) (p : AnalysisParams) (tf : String)
    (eh : Option EHContext) : ZoneMap :=
  match eh with
  | some ctx =>
      inject_eh_levels_as_zones (clusteredZonesOf bars p tf) ctx.levels
        (currentPriceOf bars p) (currentAtrOf bars p)
  | none => clusteredZonesOf bars p tf

/-- The RVOL value handed to the FSM for bar `i`: the orchestrator replaces a
NaN RVOL by `1.0` before calling `BreakoutFSM.update`. -/
def rvolForFSM (f : Features) (i : ℕ) : ℚ := (f.rvol.getD i none).getD 1

/-- The ATR value handed to the FSM for bar `i` (NaN replaced by the bar's
plain range). -/
def atrForFSM (f : Features) (bars : List Bar) (i : ℕ) : ℚ :=
  match f.atr.getD i none with
  | some a => a
  | none =>
      let b := bars.getD i ⟨0, 0, 0, 0, 0, 0⟩
      b.h - b.l

/-- Step 7: the incremental FSM replay over all bars, collecting signals. -/
def fsmRunFrom (cfg : FSMCfg) (st0 : FSMSt) (bars : List Bar) (zones : ZoneMap)
    (f : Features) : FSMSt × List Signal :=
  (List.range bars.length).foldl
    (fun acc i =>
      let bar := bars.getD i ⟨0, 0, 0, 0, 0, 0⟩
      let step := fsmUpdate cfg acc.1 bar i zones (some (rvolForFSM f i)) (atrForFSM f bars i)
      (step.1, acc.2 ++ step.2.toList))
    (st0, [])

/-- The signal list of a fresh (stateless) `analyze_market` call. -/
def freshSignalsOf (bars : List Bar) (p : AnalysisParams) (tf : String)
    (eh : Option EHContext) : List Signal :=
  (fsmRunFrom (fsmCfgOf p) fsmReset bars (zonesOf bars p tf eh) (featuresOf bars p)).2

/-- Swing points as `(index, price)` tuples for the timeline. -/
def swingTuples (pts : List SwingPoint) : List (ℕ × ℚ) :=
  pts.map fun sp => (sp.index, sp.price)

/-- The historical soft-event top-up scan of the orchestrator (one event per
bar over the last `min(10, N−1)` bars, no state comparison). -/
noncomputable def historicalEventsOf (bars : List Bar) (p : AnalysisParams)
    (tf : String) (eh : Option EHContext) : List TimelineEvent :=
  let f := featuresOf bars p
  let zones := zonesOf bars p tf eh
  let atr := currentAtrOf bars p
  let sh := swingTuples (swingsOf bars p).1
  let sl := swingTuples (swingsOf bars p).2
  let lookback := min 10 (bars.length - 1)
  (List.range' (bars.length - lookback) lookback).flatMap fun i =>
    let bar := bars.getD i ⟨0, 0, 0, 0, 0, 0⟩
    let soft := generate_soft_events bar i zones atr (some (rvolForFSM f i))
      (f.effort.getD i none) (f.result.getD i none) sh sl none
    (soft.take 1).map fun e =>
      { ts := bar.t
        event_type := e.1
        delta := ((roundTo 4 e.2.1 : ℚ) : ℝ)
        reason := e.2.2.1
        bar_index := (i : ℤ)
        severity := e.2.2.2 }

/-- The orchestrator's merge of manager events with the historical soft-event
top-up (dedup by event type, cap at 8, newest first). -/
noncomputable def mergeTimeline (fromManager historical : List TimelineEvent) :
    List TimelineEvent :=
  if fromManager.length < 5 ∧ historical.isEmpty = false then
    let merged := ((lastSlice 5 historical).reverse.foldl
      (fun acc he =>
        if he.event_type ∉ acc.2 ∧ acc.1.length < 8 then
          (acc.1 ++ [he], he.event_type :: acc.2)
        else acc)
      (fromManager, fromManager.map (·.event_type))).1
    merged.mergeSort fun a b => decide (b.ts ≤ a.ts)
  else fromManager

/-- The full orchestrator body after input validation (`analyze_market`
steps 2–12); `now` is the wall-clock stamp used only for `generated_at`. -/
noncomputable def analyzeOk (bars : List Bar) (ticker tf : String)
    (params : AnalysisParams) (state? : Option AnalysisState)
    (eh : Option EHContext) (now : ℤ) : AnalysisReport :=
  let f := featuresOf bars params
  let current_atr := currentAtrOf bars params
  let volume_quality := get_volume_quality f.rvol
  let swings := swingsOf bars params
  let current_bar_index := bars.length - 1
  let zones := zonesOf bars params tf eh
  let current_price := currentPriceOf bars params
  let market_state := classify_regime swings.1 swings.2 params.regime_m
  let st0 := state?.getD (create_initial_state params)
  let fsmRes := fsmRunFrom st0.fsmCfg st0.fsm bars zones f
  let signals := fsmRes.2
  let behavior := infer_behavior bars f zones market_state signals
  let current_bar := bars.getLastD ⟨0, 0, 0, 0, 0, 0⟩
  let current_rvol := (f.rvol.getLastD none).getD 1
  let sh := swingTuples swings.1
  let sl := swingTuples swings.2
  let tlmRes := tlmUpdate st0.tlm current_bar.t market_state behavior fsmRes.1.state
    signals current_bar current_bar_index zones current_atr (some current_rvol)
    (f.effort.getLastD none) (f.result.getLastD none) sh sl
  let historical := historicalEventsOf bars params tf eh
  let all_timeline := mergeTimeline (tlmGetEvents tlmRes.1 10) historical
  let playbook := generate_playbook market_state zones signals current_atr
    current_price eh
  { ticker := ticker.toUpper
    tf := tf
    generated_at := now
    bar_count := bars.length
    data_gaps := detect_data_gaps bars tf
    volume_quality := volume_quality
    market_state := market_state
    zones := zones
    signals := signals
    behavior := behavior
    timeline := all_timeline
    playbook := playbook }

/-- `analyze_market`: input validation (`ValueError` on fewer than
`atr_period + 1` bars) followed by the report build.  Note the timeframe
string is NOT validated anywhere. -/
noncomputable def analyze_market (bars : List Bar) (ticker tf : String)
    (params : AnalysisParams) (state? : Option AnalysisState)
    (eh : Option EHContext) (now : ℤ) : Except String AnalysisReport :=
  if bars.length < minRequired params then .error "ValueError"
  else .ok (analyzeOk bars ticker tf params state? eh now)

/-! ## Sim-trader state machine (`sim_trader/state_machine.py`)

The subroutines `detect_best_setup` (`setups.py`), `manage_position` and
`update_target_attempts` (`manager.py`) are modelled as oracle inputs carried
by each update (`SimInput.setup` / `.advice` / `.targetAttempts`), so every
theorem below is universally quantified over their results; the state-machine
control flow itself is translated verbatim.  Timestamp parsing
(`_is_trading_time`) is modelled by an optional pre-parsed ET clock value,
`none` standing for a parse failure (which the source treats as "inside
trading hours"). -/

/-- `TradeStatus` tag set. -/
inductive TradeStatus
  | WAIT
  | WATCH
  | ARMED
  | ENTER
  | HOLD
  | TRIM
  | EXIT
  deriving Repr, DecidableEq

/-- `TradeDirection` tag set. -/
inductive TradeDirection
  | CALL
  | PUT
  | NONE
  deriving Repr, DecidableEq

/-- `RiskLevel` tag set. -/
inductive RiskLevel
  | LOW
  | MED
  | HIGH
  deriving Repr, DecidableEq

/-- `SetupType` tag set. -/
inductive SetupType
  | R1_BREAKOUT
  | S1_BREAKDOWN
  | YC_RECLAIM
  | R1_REJECT
  deriving Repr, DecidableEq

/-- `setup_type.value.lower().replace("_", " ")`. -/
def setupTypeStr : SetupType → String
  | .R1_BREAKOUT => "r1 breakout"
  | .S1_BREAKDOWN => "s1 breakdown"
  | .YC_RECLAIM => "yc reclaim"
  | .R1_REJECT => "r1 reject"

/-- `TradeOutcome` tag set. -/
inductive TradeOutcome
  | WIN
  | LOSS
  | BREAKEVEN
  deriving Repr, DecidableEq

/-- `SimTraderConfig` with its defaults. -/
structure SimTraderConfig where
  buffer_pct : ℚ := 1 / 2000
  confirm_bars : ℕ := 2
  invalidate_bars : ℕ := 2
  armed_distance_pct : ℚ := 3 / 1000
  watch_distance_pct : ℚ := 1 / 100
  time_stop_minutes : ℕ := 10
  max_target_attempts : ℕ := 3
  max_trades_per_day : ℕ := 1
  opening_protection_minutes : ℕ := 10
  opening_require_high_rvol : Bool := true
  trade_start_hour : ℤ := 9
  trade_start_minute : ℤ := 40
  trade_end_hour : ℤ := 15
  trade_end_minute : ℤ := 0
  deriving Repr, DecidableEq

/-- `SetupResult` (output of the oracled `detect_best_setup`). -/
structure SetupResult where
  detected : Bool
  setup_type : Option SetupType
  direction : TradeDirection
  status : TradeStatus
  key_level : Option ℚ := none
  key_level_name : String := ""
  target_level : Option ℚ := none
  target_name : String := ""
  invalidation_level : Option ℚ := none
  risk : RiskLevel := .MED
  reasons : List String := []
  confirm_count : ℕ := 0
  deriving Repr, DecidableEq

/-- `ManageAdvice` (output of the oracled `manage_position`). -/
structure ManageAdvice where
  action : TradeStatus
  reasons : List String
  urgency : String := "normal"
  deriving Repr, DecidableEq

/-- `TradePlanRow` record. -/
structure TradePlanRow where
  ts : String
  status : TradeStatus
  direction : TradeDirection
  entry_zone : Option String := none
  entry_underlying : Option String := none
  target_underlying : Option String := none
  invalidation : Option String := none
  risk : RiskLevel := .MED
  watchlist_hint : Option String := none
  reasons : List String := []
  setup_type : Option SetupType := none
  entry_price : Option ℚ := none
  entry_ts : Option String := none
  bars_since_entry : ℕ := 0
  target_attempts : ℕ := 0
  deriving Repr, DecidableEq

/-- `TradeReview` record. -/
structure TradeReview where
  date : String
  ticker : String
  direction : TradeDirection
  setup : SetupType
  entry_ts : String
  entry_price : ℚ
  exit_ts : String
  exit_price : ℚ
  outcome : TradeOutcome
  pnl_pct : ℚ
  notes : List String
  signal_correct : Bool
  deriving Repr, DecidableEq

/-- The private setup-tracking counters of the machine. -/
structure SetupTrack where
  r1_confirm : ℕ := 0
  s1_confirm : ℕ := 0
  yc_confirm : ℕ := 0
  r1_reject_confirm : ℕ := 0
  was_below_yc : Bool := false
  touched_r1 : Bool := false
  deriving Repr, DecidableEq

/-- The machine's mutable fields (`SimTradeStateMachine`). -/
structure SimState where
  ticker : String
  current_plan : TradePlanRow
  trades_today : ℕ
  plan_history : List TradePlanRow
  reviews : List TradeReview
  setup_state : SetupTrack
  deriving Repr, DecidableEq

/-- One update's inputs: the snapshot fields the machine reads plus the
oracled subroutine results. -/
structure SimInput where
  ts : String
  etMinutes : Option ℤ
  close : ℚ
  high : ℚ
  yc : Option ℚ := none
  r1 : Option ℚ := none
  setup : SetupResult
  advice : ManageAdvice
  targetAttempts : ℕ := 0
  deriving Repr, DecidableEq

/-- `_reset_state` / freshly constructed machine. -/
def simReset (ticker : String) : SimState :=
  { ticker := ticker
    current_plan :=
      { ts := "", status := .WAIT, direction := .NONE, risk := .MED,
        reasons := ["No setup detected"] }
    trades_today := 0
    plan_history := []
    reviews := []
    setup_state := {} }

/-- `_is_trading_time` on the pre-parsed ET clock (minutes since midnight). -/
def isTradingTime (cfg : SimTraderConfig) (inp : SimInput) : Bool :=
  match inp.etMinutes with
  | none => true
  | some m =>
      decide (cfg.trade_start_hour * 60 + cfg.trade_start_minute ≤ m ∧
        m ≤ cfg.trade_end_hour * 60 + cfg.trade_end_minute)

/-- `_create_wait_plan`. -/
def createWaitPlan (ts : String) (reasons : List String) : TradePlanRow :=
  { ts := ts, status := .WAIT, direction := .NONE, risk := .MED, reasons := reasons }

/-- Stand-in for Python `f"{x:.2f}"`. -/
def fmt2 (x : ℚ) : String := toString (roundTo 2 x)

/-- `_create_plan_from_setup` (Python truthiness: a level of `0.0` counts as
absent). -/
def createPlanFromSetup (cfg : SimTraderConfig) (ts : String) (result : SetupResult) :
    TradePlanRow :=
  let watchlist_hint : Option String :=
    if result.status = .ARMED ∨ result.status = .ENTER then
      match result.direction with
      | .CALL => some "Watch 0DTE ATM +1 strike CALL"
      | .PUT => some "Watch 0DTE ATM +1 strike PUT"
      | .NONE => none
    else none
  let keyLevel : Option ℚ :=
    match result.key_level with
    | some k => if k = 0 then none else some k
    | none => none
  let invLevel : Option ℚ :=
    match result.invalidation_level with
    | some k => if k = 0 then none else some k
    | none => none
  let tgtLevel : Option ℚ :=
    match result.target_level with
    | some k => if k = 0 then none else some k
    | none => none
  let entry_underlying : Option String :=
    match keyLevel, result.direction with
    | some k, .CALL => some (">= " ++ fmt2 k ++ " (" ++ toString cfg.confirm_bars ++ " closes)")
    | some k, .PUT => some ("<= " ++ fmt2 k ++ " (" ++ toString cfg.confirm_bars ++ " closes)")
    | _, _ => none
  let invalidation : Option String :=
    match keyLevel, invLevel, result.direction with
    | some _, some iv, .CALL =>
        some ("< " ++ fmt2 iv ++ " (" ++ toString cfg.invalidate_bars ++ " bars)")
    | some _, some iv, .PUT =>
        some ("> " ++ fmt2 iv ++ " (" ++ toString cfg.invalidate_bars ++ " bars)")
    | _, _, _ => none
  let target_underlying : Option String :=
    match tgtLevel with
    | some t => some (result.target_name ++ " " ++ fmt2 t)
    | none => none
  { ts := ts
    status := result.status
    direction := result.direction
    entry_zone :=
      match result.setup_type with
      | some st => some (result.key_level_name ++ " " ++ setupTypeStr st)
      | none => none
    entry_underlying := entry_underlying
    target_underlying := target_underlying
    invalidation := invalidation
    risk := result.risk
    watchlist_hint := watchlist_hint
    reasons := result.reasons
    setup_type := result.setup_type }

/-- `_update_setup_state` (Python truthiness: `YC`/`R1` of `0.0` count as
absent). -/
def updateSetupTrack (track : SetupTrack) (inp : SimInput) (result : SetupResult) :
    SetupTrack :=
  let track :=
    match result.setup_type with
    | some .R1_BREAKOUT => { track with r1_confirm := result.confirm_count }
    | some .S1_BREAKDOWN => { track with s1_confirm := result.confirm_count }
    | some .YC_RECLAIM => { track with yc_confirm := result.confirm_count }
    | some .R1_REJECT => { track with r1_reject_confirm := result.confirm_count }
    | none => track
  let track :=
    match inp.yc with
    | some y => if y ≠ 0 ∧ inp.close < y then { track with was_below_yc := true } else track
    | none => track
  match inp.r1 with
  | some r => if r ≠ 0 ∧ r ≤ inp.high then { track with touched_r1 := true } else track
  | none => track

/-- `_add_to_history`: append the current plan, keep the last 100 rows. -/
def pushHistory (history : List TradePlanRow) (plan : TradePlanRow) : List TradePlanRow :=
  let h := history ++ [plan]
  if 100 < h.length then lastSlice 100 h else h

/-- `_create_review` (Python truthiness: empty `entry_ts` or zero
`entry_price` suppress the review). -/
def createReview (s : SimState) (inp : SimInput) (reason : String) : List TradeReview :=
  match s.current_plan.entry_ts, s.current_plan.entry_price with
  | some et, some ep =>
      if et = "" ∨ ep = 0 then s.reviews
      else
        let exit_price := inp.close
        let pnl_pct : ℚ :=
          if s.current_plan.direction = .CALL then (exit_price - ep) / ep * 100
          else (ep - exit_price) / ep * 100
        let outcome : TradeOutcome :=
          if (1 : ℚ) / 10 < pnl_pct then .WIN
          else if pnl_pct < -(1 : ℚ) / 10 then .LOSS
          else .BREAKEVEN
        s.reviews ++
          [{ date := inp.ts.take 10
             ticker := s.ticker
             direction := s.current_plan.direction
             setup := s.current_plan.setup_type.getD .R1_BREAKOUT
             entry_ts := et
             entry_price := ep
             exit_ts := inp.ts
             exit_price := exit_price
             outcome := outcome
             pnl_pct := pnl_pct
             notes := [reason]
             signal_correct := outcome ≠ .LOSS }]
  | _, _ => s.reviews

/-- The f-string `"Daily trade limit reached ({n}/{m})"`. -/
def limitReachedMsg (n m : ℕ) : String :=
  "Daily trade limit reached (" ++ toString n ++ "/" ++ toString m ++ ")"

/-- `SimTradeStateMachine.update`: one step, returning the new machine state
and the emitted `TradePlanRow`. -/
def simUpdate (cfg : SimTraderConfig) (s : SimState) (inp : SimInput) :
    SimState × TradePlanRow :=
  if ¬isTradingTime cfg inp then
    (s, createWaitPlan inp.ts ["Outside trading hours"])
  else if cfg.max_trades_per_day ≤ s.trades_today ∧
      s.current_plan.status ≠ .HOLD ∧ s.current_plan.status ≠ .TRIM then
    (s, createWaitPlan inp.ts [limitReachedMsg s.trades_today cfg.max_trades_per_day])
  else
    match s.current_plan.status with
    | .WAIT =>
        let result := inp.setup
        let track := updateSetupTrack s.setup_state inp result
        if result.detected then
          let plan := createPlanFromSetup cfg inp.ts result
          ({ s with current_plan := plan, setup_state := track,
                    plan_history := pushHistory s.plan_history plan }, plan)
        else
          let plan := createWaitPlan inp.ts result.reasons
          ({ s with current_plan := plan, setup_state := track }, plan)
    | .WATCH =>
        let result := inp.setup
        let track := updateSetupTrack s.setup_state inp result
        if ¬result.detected then
          let plan := createWaitPlan inp.ts ["Setup invalidated"]
          ({ s with current_plan := plan, setup_state := track,
                    plan_history := pushHistory s.plan_history plan }, plan)
        else if result.status = .ARMED ∨ result.status = .ENTER then
          let plan := createPlanFromSetup cfg inp.ts result
          ({ s with current_plan := plan, setup_state := track,
                    plan_history := pushHistory s.plan_history plan }, plan)
        else
          let plan := createPlanFromSetup cfg inp.ts result
          ({ s with current_plan := plan, setup_state := track }, plan)
    | .ARMED =>
        let result := inp.setup
        let track := updateSetupTrack s.setup_state inp result
        if ¬result.detected then
          let plan := createWaitPlan inp.ts ["Setup invalidated"]
          ({ s with current_plan := plan, setup_state := track,
                    plan_history := pushHistory s.plan_history plan }, plan)
        else if result.status = .ENTER then
          let plan0 := createPlanFromSetup cfg inp.ts result
          let plan := { plan0 with entry_price := some inp.close, entry_ts := some inp.ts }
          ({ s with current_plan := plan, setup_state := track,
                    plan_history := pushHistory s.plan_history plan }, plan)
        else if result.status = .WATCH then
          let plan := createPlanFromSetup cfg inp.ts result
          ({ s with current_plan := plan, setup_state := track,
                    plan_history := pushHistory s.plan_history plan }, plan)
        else
          let plan := createPlanFromSetup cfg inp.ts result
          ({ s with current_plan := plan, setup_state := track }, plan)
    | .ENTER =>
        let plan := { s.current_plan with status := .HOLD, ts := inp.ts, bars_since_entry := 1 }
        ({ s with current_plan := plan, trades_today := s.trades_today + 1,
                  plan_history := pushHistory s.plan_history plan }, plan)
    | .HOLD | .TRIM =>
        let plan0 :=
          { s.current_plan with
            bars_since_entry := s.current_plan.bars_since_entry + 1
            ts := inp.ts
            target_attempts := inp.targetAttempts }
        let advice := inp.advice
        if advice.action = .EXIT then
          let plan := { plan0 with status := .EXIT, reasons := advice.reasons }
          ({ s with current_plan := plan,
                    plan_history := pushHistory s.plan_history plan,
                    reviews := createReview { s with current_plan := plan } inp "signal_triggered" },
           plan)
        else if advice.action = .TRIM then
          let plan := { plan0 with status := .TRIM, reasons := advice.reasons }
          ({ s with current_plan := plan }, plan)
        else
          let plan := { plan0 with status := .HOLD, reasons := advice.reasons }
          ({ s with current_plan := plan }, plan)
    | .EXIT =>
        let plan := createWaitPlan inp.ts ["Trade completed, watching for next setup"]
        ({ s with current_plan := plan,
                  plan_history := pushHistory s.plan_history plan }, plan)

/-- A run of the machine over a list of inputs, collecting the emitted rows. -/
def simRun (cfg : SimTraderConfig) (s : SimState) : List SimInput →
    List TradePlanRow × SimState
  | [] => ([], s)
  | inp :: rest =>
      let step := simUpdate cfg s inp
      let tail := simRun cfg step.1 rest
      (step.2 :: tail.1, tail.2)

/-! ## Definitions supporting the verification statements -/

/-- A symmetric test candle: open = close = `m`, range 1, volume 10⁶,
daily spacing. -/
def mkB (i : ℤ) (m : ℚ) : Bar := ⟨86400 * i, m, m + 1 / 2, m - 1 / 2, m, 1000000⟩

/-- A 15-bar input (the minimum for the default `atr_period = 14`): flat at
100 with one spike to 102 (bar 5) and one dip to 98 (bar 9).  It produces two
support zones, two resistance zones, four FSM signals and all-NaN RVOL
(volume window 30 > 15). -/
def bars15 : List Bar :=
  [mkB 0 100, mkB 1 100, mkB 2 100, mkB 3 100, mkB 4 100,
   mkB 5 102, mkB 6 100, mkB 7 100, mkB 8 100, mkB 9 98,
   mkB 10 100, mkB 11 100, mkB 12 100, mkB 13 100, mkB 14 100]

/-- Sum of the behavior probabilities of a report. -/
noncomputable def sumProbs (r : AnalysisReport) : ℝ :=
  (r.behavior.probabilities.map Prod.snd).sum

/-- Maximum probability value of a behavior distribution (all softmax values
are nonnegative, so the seed 0 is neutral). -/
noncomputable def maxProbVal (l : List (BehaviorKind × ℝ)) : ℝ :=
  (l.map Prod.snd).foldr max 0

/-- Whether an `analyze_market` call succeeded. -/
def isOkB : Except String AnalysisReport → Bool
  | .ok _ => true
  | .error _ => false

/-- A report with the wall-clock stamp erased (for the determinism claim). -/
noncomputable def eraseTime (r : AnalysisReport) : AnalysisReport :=
  { r with generated_at := 0 }

/-- Truncated Taylor sum of `exp` at a rational point. -/
def tsumQ (x : ℚ) (n : ℕ) : ℚ := ∑ m ∈ Finset.range n, x ^ m / m.factorial

/-- The remainder bound of `Real.exp_bound` at a rational point. -/
def errQ (x : ℚ) (n : ℕ) : ℚ := |x| ^ n * ((n + 1 : ℕ) : ℚ) / ((n.factorial : ℚ) * n)

/-- Lower rational endpoint for `Real.exp` at a rational point (Taylor, 14 terms). -/
def expLo (x : ℚ) : ℚ := tsumQ x 14 - errQ x 14

/-- Upper rational endpoint for `Real.exp` at a rational point (Taylor, 14 terms). -/
def expHi (x : ℚ) : ℚ := tsumQ x 14 + errQ x 14

/-- Lower rational endpoint for the softmax denominator on the `bars15` scores. -/
def zLo15 : ℚ :=
  expLo (-(3 / 10)) + expLo 0 + expLo (-(7 / 10)) + expLo (-(3 / 10)) + expLo (-(1 / 2))

/-- Upper rational endpoint for the softmax denominator on the `bars15` scores. -/
def zHi15 : ℚ :=
  expHi (-(3 / 10)) + expHi 0 + expHi (-(7 / 10)) + expHi (-(3 / 10)) + expHi (-(1 / 2))

/-- A sample EH context: `YC = 150`, `YH = 155`, `YL = 148`, `PMH = 154`,
no AH data, gap `+4`. -/
def ehCtx0 : EHContext :=
  { levels := { yc := 150, yh := 155, yl := 148, pmh := some 154, pml := some (301 / 2), gap := 4 }
    premarket_regime := "gap_fill_bias" }

/-- The severity mapping that the timeline code actually implements
(hard events via `hardSeverity`, soft events via the literal tuples of
`generate_soft_events`). -/
def severityOfEventType : EventType → Severity
  | .regime_change | .breakout_confirmed | .breakdown_confirmed
  | .spring | .upthrust => .critical
  | .behavior_shift | .fakeout_detected
  | .zone_accepted | .absorption_clue | .volume_spike => .warning
  | _ => .info

/-- A trading-hours sim-trader input whose oracles report nothing
(used to exercise the daily-limit lockout). -/
def simInputQuiet : SimInput :=
  { ts := "2026-10-09T14:45:00Z"
    etMinutes := some (10 * 60 + 45)
    close := 624
    high := 624
    setup := { detected := false, setup_type := none, direction := .NONE, status := .WAIT }
    advice := { action := .HOLD, reasons := [] } }

/-- A machine state that is in `ENTER` with no trade taken yet. -/
def simStateEnter : SimState :=
  { simReset "QQQ" with
    current_plan :=
      { ts := "2026-10-09T14:44:00Z", status := .ENTER, direction := .CALL,
        risk := .MED, entry_price := some 624, entry_ts := some "2026-10-09T14:44:00Z" } }

/-- A terminal FSM state with leftover bookkeeping (for the terminal-state
witness). -/
def fsmStConfirmed : FSMSt :=
  { state := .confirmed
    zone := some { low := 99, high := 101, score := 33 / 100, touches := 1 }
    direction := some .up
    attempt_bar_index := some 5
    consecutive_closes := 2
    max_volume_seen := 2
    max_result_seen := 1 }

/-- A machine state that has used up its daily trade budget while holding no
position. -/
def simStateLimit : SimState := { simReset "QQQ" with trades_today := 1 }

/-! ## General helper lemmas -/

theorem getD_map_range {α : Type} (f : ℕ → α) {n i : ℕ} (d : α) (h : i < n) :
    ((List.range n).map f).getD i d = f i := by
  simp [List.getD_eq_getElem?_getD, List.getElem?_map, List.getElem?_range, h]

theorem trueRanges_go_length (prev : Bar) (rest : List Bar) :
    (trueRanges.go prev rest).length = rest.length := by
  induction rest generalizing prev with
  | nil => rfl
  | cons b bs ih => simp [trueRanges.go, ih]

theorem trueRanges_length (bars : List Bar) : (trueRanges bars).length = bars.length := by
  cases bars with
  | nil => rfl
  | cons b0 rest => simp [trueRanges, trueRanges_go_length]

theorem trueRanges_go_getD (prev : Bar) (rest : List Bar) (j : ℕ) (h : j < rest.length) :
    (trueRanges.go prev rest).getD j 0 =
      (let b := rest.getD j ⟨0, 0, 0, 0, 0, 0⟩
       let pb := if j = 0 then prev else rest.getD (j - 1) ⟨0, 0, 0, 0, 0, 0⟩
       max (b.h - b.l) (max |b.h - pb.c| |b.l - pb.c|)) := by
  induction rest generalizing prev j with
  | nil => simp at h
  | cons b bs ih =>
      cases j with
      | zero => simp [trueRanges.go]
      | succ k =>
          have hk : k < bs.length := by simpa using h
          have := ih b k hk
          simp only [trueRanges.go, List.getD_cons_succ]
          rw [this]
          cases k with
          | zero => simp
          | succ m => simp

/-- `TR` index formula for interior indices. -/
theorem trueRanges_getD (bars : List Bar) (i : ℕ) (h0 : 0 < i) (h : i < bars.length) :
    (trueRanges bars).getD i 0 =
      (let b := bars.getD i ⟨0, 0, 0, 0, 0, 0⟩
       let pb := bars.getD (i - 1) ⟨0, 0, 0, 0, 0, 0⟩
       max (b.h - b.l) (max |b.h - pb.c| |b.l - pb.c|)) := by
  cases bars with
  | nil => simp at h
  | cons b0 rest =>
      cases i with
      | zero => omega
      | succ j =>
          have hj : j < rest.length := by simpa using h
          simp only [trueRanges, List.getD_cons_succ]
          rw [trueRanges_go_getD b0 rest j hj]
          cases j with
          | zero => simp
          | succ m => simp

theorem atrVal_seed (tr : List ℚ) {p : ℕ} (hp : 0 < p) :
    atrVal tr p p = qmean ((tr.drop 1).take p) := by
  cases p with
  | zero => omega
  | succ k => simp [atrVal]

theorem atrVal_wilder (tr : List ℚ) {p i : ℕ} (h : p < i) :
    atrVal tr p i = atrVal tr p (i - 1) * ((p : ℚ) - 1) / p + tr.getD i 0 / p := by
  cases i with
  | zero => omega
  | succ k =>
      have : ¬(k + 1 ≤ p) := by omega
      simp [atrVal, this]

/-- C4: for every bar list of length `N ≥ period+1` (and a positive period),
`calculate_atr` succeeds and returns an array in which indices below `period`
are NaN, the entry at `period` is the simple mean of `TR₁..TR_p`, every later
entry satisfies the Wilder identity `ATRᵢ·p − ATR_{i−1}·(p−1) = TRᵢ`, and the
true ranges are `TRᵢ = max(hᵢ−lᵢ, |hᵢ−c_{i−1}|, |lᵢ−c_{i−1}|)`. -/
theorem atr_wilder_identity (bars : List Bar) (period : ℕ) (hp : 0 < period)
    (hn : period + 1 ≤ bars.length) :
    ∃ atr, calculate_atr bars period = Except.ok atr ∧
      atr.length = bars.length ∧
      (∀ i, i < period → atr.getD i none = none) ∧
      atr.getD period none =
        some ((((trueRanges bars).drop 1).take period).sum / period) ∧
      (∀ i, period < i → i < bars.length →
        ∃ ai aim, atr.getD i none = some ai ∧ atr.getD (i - 1) none = some aim ∧
          ai * period - aim * ((period : ℚ) - 1) = (trueRanges bars).getD i 0) ∧
      (∀ i, 0 < i → i < bars.length →
        (trueRanges bars).getD i 0 =
          (let b := bars.getD i ⟨0, 0, 0, 0, 0, 0⟩
           let pb := bars.getD (i - 1) ⟨0, 0, 0, 0, 0, 0⟩
           max (b.h - b.l) (max |b.h - pb.c| |b.l - pb.c|))) := by
  have hlt : ¬bars.length < period + 1 := by omega
  refine ⟨(List.range bars.length).map fun i =>
    if i < period then none else some (atrVal (trueRanges bars) period i), ?_, ?_, ?_, ?_, ?_, ?_⟩
  · simp [calculate_atr, hlt]
  · simp
  · intro i hi
    rw [getD_map_range _ none (by omega)]
    simp [hi]
  · rw [getD_map_range _ none (by omega)]
    have hlen : (((trueRanges bars).drop 1).take period).length = period := by
      rw [List.length_take, List.length_drop, trueRanges_length]
      omega
    simp only [lt_irrefl, if_false, atrVal_seed _ hp, qmean, hlen]
  · intro i hpi hi
    refine ⟨atrVal (trueRanges bars) period i, atrVal (trueRanges bars) period (i - 1), ?_, ?_, ?_⟩
    · rw [getD_map_range _ none hi]
      simp [show ¬i < period by omega]
    · rw [getD_map_range _ none (by omega)]
      simp [show ¬i - 1 < period by omega]
    · rw [atrVal_wilder _ hpi]
      have hp0 : (period : ℚ) ≠ 0 := by positivity
      field_simp
  · intro i h0 hi
    exact trueRanges_getD bars i h0 hi

/-- Witness for `atr_wilder_identity` at `period = 2` on a concrete 4-bar
input. -/
theorem atr_wilder_identity_witness :
    0 < 2 ∧ 2 + 1 ≤ (bars15.take 4).length ∧
      (∃ atr, calculate_atr (bars15.take 4) 2 = Except.ok atr ∧
        atr.length = (bars15.take 4).length ∧
        (∀ i, i < 2 → atr.getD i none = none) ∧
        atr.getD 2 none =
          some ((((trueRanges (bars15.take 4)).drop 1).take 2).sum / 2) ∧
        (∀ i, 2 < i → i < (bars15.take 4).length →
          ∃ ai aim, atr.getD i none = some ai ∧ atr.getD (i - 1) none = some aim ∧
            ai * 2 - aim * ((2 : ℚ) - 1) = (trueRanges (bars15.take 4)).getD i 0) ∧
        (∀ i, 0 < i → i < (bars15.take 4).length →
          (trueRanges (bars15.take 4)).getD i 0 =
            (let b := (bars15.take 4).getD i ⟨0, 0, 0, 0, 0, 0⟩
             let pb := (bars15.take 4).getD (i - 1) ⟨0, 0, 0, 0, 0, 0⟩
             max (b.h - b.l) (max |b.h - pb.c| |b.l - pb.c|)))) :=
  ⟨by decide, by decide, atr_wilder_identity (bars15.take 4) 2 (by decide) (by decide)⟩

/-- C6: whenever the breakout FSM sits in `CONFIRMED` or `FAKEOUT`, the very
next `update` returns it to `IDLE` with no stored zone, direction or attempt
index, and emits no signal — so the terminal states last exactly one update. -/
theorem fsm_terminal_one_tick (cfg : FSMCfg) (st : FSMSt) (bar : Bar) (bar_index : ℕ)
    (zones : ZoneMap) (rvol : Option ℚ) (atr : ℚ)
    (h : st.state = .confirmed ∨ st.state = .fakeout) :
    fsmUpdate cfg st bar bar_index zones rvol atr = (fsmReset, none) ∧
      (fsmUpdate cfg st bar bar_index zones rvol atr).1.state = .idle ∧
      (fsmUpdate cfg st bar bar_index zones rvol atr).1.zone = none ∧
      (fsmUpdate cfg st bar bar_index zones rvol atr).1.direction = none ∧
      (fsmUpdate cfg st bar bar_index zones rvol atr).1.attempt_bar_index = none ∧
      (fsmUpdate cfg st bar bar_index zones rvol atr).2 = none := by
  rcases h with h | h <;> simp [fsmUpdate, h, fsmReset]

/-- Witness for `fsm_terminal_one_tick` on a concrete `CONFIRMED` state. -/
theorem fsm_terminal_one_tick_witness :
    (fsmStConfirmed.state = .confirmed ∨ fsmStConfirmed.state = .fakeout) ∧
      fsmUpdate {} fsmStConfirmed (mkB 6 100) 6 ⟨[], []⟩ (some 1) 1 = (fsmReset, none) := by
  refine ⟨Or.inl (by decide), ?_⟩
  exact (fsm_terminal_one_tick {} fsmStConfirmed (mkB 6 100) 6 ⟨[], []⟩ (some 1) 1
    (Or.inl (by decide))).1

/-- C9 part: a `simRun` trace from a limit-locked state during trading hours
is all `WAIT` rows carrying the limit-reached reason. -/
theorem sim_trader_limit_trace (cfg : SimTraderConfig) (s : SimState)
    (l : List SimInput) (hlim : cfg.max_trades_per_day ≤ s.trades_today)
    (h1 : s.current_plan.status ≠ .HOLD) (h2 : s.current_plan.status ≠ .TRIM)
    (htr : ∀ inp ∈ l, isTradingTime cfg inp = true) :
    simRun cfg s l =
      (l.map fun inp => createWaitPlan inp.ts
        [limitReachedMsg s.trades_today cfg.max_trades_per_day], s) := by
  induction l with
  | nil => simp [simRun]
  | cons inp rest ih =>
      have htri : isTradingTime cfg inp = true := htr inp (by simp)
      have hstep : simUpdate cfg s inp =
          (s, createWaitPlan inp.ts [limitReachedMsg s.trades_today cfg.max_trades_per_day]) := by
        simp [simUpdate, htri, hlim, h1, h2]
      have hrest := ih (fun i hi => htr i (by simp [hi]))
      simp [simRun, hstep, hrest]

/-- The daily counter after one update: it grows by one exactly when the
machine was in `ENTER`, inside trading hours and below the daily limit. -/
theorem simUpdate_trades_eq (cfg : SimTraderConfig) (s : SimState) (inp : SimInput) :
    (simUpdate cfg s inp).1.trades_today =
      (if isTradingTime cfg inp = true ∧ s.current_plan.status = .ENTER ∧
          s.trades_today < cfg.max_trades_per_day
       then s.trades_today + 1 else s.trades_today) := by
  by_cases htr : isTradingTime cfg inp = true
  · by_cases hlim : cfg.max_trades_per_day ≤ s.trades_today
    · have hnl : ¬s.trades_today < cfg.max_trades_per_day := by omega
      rcases hst : s.current_plan.status with _ | _ | _ | _ | _ | _ | _ <;>
        simp only [simUpdate, htr, hlim, hst, hnl, not_true, not_false_iff,
          Bool.not_eq_true, and_true, and_false, true_and, false_and, if_false,
          ite_true, ite_false, ne_eq, not_not, if_true, true_iff] <;>
        (first
          | (simp only [apply_ite (fun p : SimState × TradePlanRow => p.1.trades_today)]
             simp)
          | simp)
    · have hlt : s.trades_today < cfg.max_trades_per_day := by omega
      rcases hst : s.current_plan.status with _ | _ | _ | _ | _ | _ | _ <;>
        simp only [simUpdate, htr, hlim, hst, hlt, not_true, not_false_iff,
          Bool.not_eq_true, and_true, and_false, true_and, false_and, if_false,
          ite_true, ite_false, ne_eq, not_not, if_true, true_iff] <;>
        (first
          | (simp only [apply_ite (fun p : SimState × TradePlanRow => p.1.trades_today)]
             simp)
          | simp)
  · simp [simUpdate, htr]

/-- On the `ENTER → HOLD` transition (trading hours, below the limit), the
emitted row and the stored plan both carry status `HOLD`. -/
theorem simUpdate_enter_hold (cfg : SimTraderConfig) (s : SimState) (inp : SimInput)
    (htr : isTradingTime cfg inp = true) (hst : s.current_plan.status = .ENTER)
    (hlt : s.trades_today < cfg.max_trades_per_day) :
    (simUpdate cfg s inp).2.status = .HOLD ∧
      (simUpdate cfg s inp).1.current_plan.status = .HOLD ∧
      (simUpdate cfg s inp).1.trades_today = s.trades_today + 1 := by
  have hnl : ¬cfg.max_trades_per_day ≤ s.trades_today := by omega
  simp [simUpdate, htr, hnl, hst]

/-- C9: `trades_today` increments exactly on the `ENTER → HOLD` transition
(one update increments the counter iff the machine was in `ENTER`, inside
trading hours and below the daily limit, and in that case the emitted row and
the stored plan move to `HOLD`); and from any state at the daily limit whose
status is neither `HOLD` nor `TRIM`, every subsequent trading-hours update
returns `WAIT` with the limit-reached reason and leaves the state unchanged. -/
theorem sim_trader_trade_accounting (cfg : SimTraderConfig) (s : SimState)
    (inp : SimInput) (l : List SimInput) :
    ((simUpdate cfg s inp).1.trades_today = s.trades_today + 1 ↔
      (isTradingTime cfg inp = true ∧ s.current_plan.status = .ENTER ∧
        s.trades_today < cfg.max_trades_per_day)) ∧
    (isTradingTime cfg inp = true → s.current_plan.status = .ENTER →
      s.trades_today < cfg.max_trades_per_day →
      (simUpdate cfg s inp).2.status = .HOLD ∧
        (simUpdate cfg s inp).1.current_plan.status = .HOLD) ∧
    (cfg.max_trades_per_day ≤ s.trades_today →
      s.current_plan.status ≠ .HOLD → s.current_plan.status ≠ .TRIM →
      (∀ i ∈ l, isTradingTime cfg i = true) →
      simRun cfg s l =
        (l.map fun i => createWaitPlan i.ts
          [limitReachedMsg s.trades_today cfg.max_trades_per_day], s)) := by
  refine ⟨?_, ?_, fun hlim h1 h2 htr => sim_trader_limit_trace cfg s l hlim h1 h2 htr⟩
  · rw [simUpdate_trades_eq]
    split
    next h => simp [h]
    next h =>
      constructor
      · intro hc
        omega
      · intro hc
        exact absurd hc h
  · intro htr hst hlt
    exact ⟨(simUpdate_enter_hold cfg s inp htr hst hlt).1,
      (simUpdate_enter_hold cfg s inp htr hst hlt).2.1⟩

/-- Witness for `sim_trader_trade_accounting`: a fresh `ENTER` state takes the
trade, and the limit-locked state answers `WAIT` with the limit reason. -/
theorem sim_trader_trade_accounting_witness :
    ((simUpdate {} simStateEnter simInputQuiet).1.trades_today =
        simStateEnter.trades_today + 1 ↔
      (isTradingTime {} simInputQuiet = true ∧
        simStateEnter.current_plan.status = .ENTER ∧
        simStateEnter.trades_today < SimTraderConfig.max_trades_per_day {})) ∧
    (simRun {} simStateLimit [simInputQuiet] =
      ([createWaitPlan simInputQuiet.ts [limitReachedMsg 1 1]], simStateLimit)) := by
  constructor
  · exact (sim_trader_trade_accounting {} simStateEnter simInputQuiet []).1
  · exact (sim_trader_trade_accounting {} simStateLimit simInputQuiet [simInputQuiet]).2.2
      (by decide) (by decide) (by decide) (by decide)



/-- Every soft event generated for a bar carries the severity that
`severityOfEventType` assigns to its type. -/
theorem generate_soft_events_severity (bar : Bar) (bar_idx : ℕ) (zones : ZoneMap)
    (atr : ℚ) (rvol effort result : Option ℚ) (sh sl : List (ℕ × ℚ))
    (ps : Option TimelineState) :
    ∀ e ∈ generate_soft_events bar bar_idx zones atr rvol effort result sh sl ps,
      e.2.2.2 = severityOfEventType e.1 := by
  intro e he
  simp only [generate_soft_events, List.mem_append] at he
  rcases he with ((((((h | h) | h) | h) | h) | h) | h)
  · rw [Option.mem_toList] at h
    obtain ⟨z, -, hf⟩ := List.exists_of_findSome?_eq_some h
    clear h
    split_ifs at hf <;> injection hf with hf2 <;> subst hf2 <;> rfl
  · rw [Option.mem_toList] at h
    obtain ⟨z, -, hf⟩ := List.exists_of_findSome?_eq_some h
    clear h
    split_ifs at hf <;> injection hf with hf2 <;> subst hf2 <;> rfl
  · split at h
    · simp only [List.mem_append] at h
      rcases h with h | h <;>
      · rw [Option.mem_toList] at h
        obtain ⟨z, -, hf⟩ := List.exists_of_findSome?_eq_some h
        clear h
        split_ifs at hf <;> injection hf with hf2 <;> subst hf2 <;> rfl
    · simp at h
  · rcases effort with _ | ev <;> rcases result with _ | rv <;> (try simp at h)
    obtain ⟨-, rfl⟩ := h
    rfl
  · rcases rvol with _ | rv <;> (try simp at h)
    split_ifs at h <;> simp at h <;> subst h <;> rfl
  · rcases hgl : sh.getLast? with _ | p <;> rcases ps with _ | st <;>
      simp only [hgl] at h <;> (try simp at h)
    obtain ⟨-, rfl⟩ := h
    rfl
  · rcases hgl : sl.getLast? with _ | p <;> rcases ps with _ | st <;>
      simp only [hgl] at h <;> (try simp at h)
    obtain ⟨-, rfl⟩ := h
    rfl

/-- Every hard-event type produced by `should_emit_event` is mapped by
`hardSeverity` exactly as `severityOfEventType` prescribes. -/
theorem shouldEmitEvent_severity (old : Option TimelineState) (new : TimelineState)
    (threshold : ℝ) :
    ∀ ev ∈ shouldEmitEvent old new threshold,
      hardSeverity ev.1 = severityOfEventType ev.1 := by
  intro ev hev
  rcases old with _ | o
  · simp only [shouldEmitEvent, List.mem_singleton] at hev
    subst hev
    rfl
  · simp only [shouldEmitEvent, List.mem_append] at hev
    rcases hev with ((h | h) | h) | h
    · split_ifs at h <;> simp at h <;> subst h <;> rfl
    · split_ifs at h <;> simp at h <;> subst h <;> rfl
    · obtain ⟨p, -, hp⟩ := List.mem_filterMap.mp h
      clear h
      split_ifs at hp <;> injection hp with hp2 <;> subst hp2 <;> rfl
    · split at h
      · rcases hb : new.breakout_state with _ | _ | _ | _ <;> rw [hb] at h <;>
          simp at h <;> subst h <;> rfl
      · simp at h

/-- C8 (amended): every event emitted by `TimelineManager.update` — hard or
soft — and every historical top-up event carries the severity the code's
mapping assigns to its type: `regime_change`, `breakout_confirmed`,
`breakdown_confirmed`, `spring`, `upthrust` → critical; `behavior_shift`,
`fakeout_detected`, `zone_accepted`, `absorption_clue`, `volume_spike` →
warning; everything else → info.  (The claim's only deviation from the code
is `zone_accepted`, which the code emits with severity `warning`.) -/
theorem timeline_severity_mapping (m : TLM) (timestamp : ℤ) (ms : MarketState)
    (behavior : Behavior) (bk : BKState) (signals : List Signal) (bar : Bar)
    (bar_idx : ℕ) (zones : ZoneMap) (atr : ℚ) (rvol effort result : Option ℚ)
    (sh sl : List (ℕ × ℚ)) (bars : List Bar) (p : AnalysisParams) (tf : String)
    (eh : Option EHContext) :
    (∀ e ∈ (tlmUpdate m timestamp ms behavior bk signals bar bar_idx zones atr
        rvol effort result sh sl).2,
      e.severity = severityOfEventType e.event_type) ∧
    (∀ e ∈ historicalEventsOf bars p tf eh,
      e.severity = severityOfEventType e.event_type) ∧
    (∀ e ∈ generate_soft_events bar bar_idx zones atr rvol effort result sh sl
        m.previous_state,
      e.2.2.2 = severityOfEventType e.1) := by
  refine ⟨?_, ?_, generate_soft_events_severity bar bar_idx zones atr rvol effort result
    sh sl m.previous_state⟩
  · intro e he
    simp only [tlmUpdate, List.mem_append] at he
    rcases he with h | h
    · obtain ⟨ev, hev, rfl⟩ := List.mem_map.mp h
      simpa using shouldEmitEvent_severity _ _ _ ev hev
    · split at h
      · obtain ⟨ev, hev, rfl⟩ := List.mem_map.mp h
        have hev2 := List.mem_of_mem_take hev
        split at hev2
        · simpa using generate_soft_events_severity bar bar_idx zones atr rvol effort
            result sh sl m.previous_state ev hev2
        · simp at hev2
      · simp at h
  · intro e he
    simp only [historicalEventsOf, List.mem_flatMap] at he
    obtain ⟨i, -, hi⟩ := he
    obtain ⟨ev, hev, rfl⟩ := List.mem_map.mp hi
    simpa using generate_soft_events_severity _ _ _ _ _ _ _ _ _ _ ev
      (List.mem_of_mem_take hev)

/-- C8 counterexample: a bar closing above a resistance zone makes
`generate_soft_events` emit `zone_accepted` with severity `warning`, not
`critical` as the claim states. -/
theorem zone_accepted_is_warning :
    (generate_soft_events (mkB 0 102) 0 ⟨[], [⟨99, 101, 33 / 100, 1, 0, 0, none⟩]⟩ 1
        none none none [] [] none).map (fun e => (e.1, e.2.2.2)) =
      [(EventType.zone_accepted, Severity.warning)] ∧
      Severity.warning ≠ Severity.critical := by
  constructor
  · with_unfolding_all decide
  · decide

/-- Witness for `timeline_severity_mapping`: the concrete `zone_accepted`
soft event carries exactly the mapped severity. -/
theorem timeline_severity_mapping_witness :
    ((EventType.zone_accepted, (100 : ℚ), "event.zone.resistance_accepted",
        Severity.warning) : SoftEvent).2.2.2 =
      severityOfEventType EventType.zone_accepted :=
  (timeline_severity_mapping { probability_threshold := 0 } 0 ⟨.range, 1⟩
      ⟨[], .accumulation, []⟩ .idle [] (mkB 0 102) 0
      ⟨[], [⟨99, 101, 33 / 100, 1, 0, 0, none⟩]⟩ 1 none none none [] [] []
      defaultParams "1d" none).2.2
    (EventType.zone_accepted, 100, "event.zone.resistance_accepted", Severity.warning)
    (by with_unfolding_all decide)

set_option maxRecDepth 10000 in
/-- C2 counterexample: on `bars15` the RVOL of bar 5 is NaN (the 30-bar
volume window is longer than the series), yet the value the orchestrator
hands to the FSM is the number `1.0`, and the signals that come out carry
`volume_quality = pending` — not the `unavailable` that NaN propagation would
produce. -/
theorem rvol_nan_not_propagated :
    (featuresOf bars15 defaultParams).rvol.getD 5 none = none ∧
      rvolForFSM (featuresOf bars15 defaultParams) 5 = 1 ∧
      (freshSignalsOf bars15 defaultParams "1d" none).map (·.volume_quality) =
        [.pending, .pending, .pending, .pending] := by
  refine ⟨by with_unfolding_all decide, by with_unfolding_all decide,
    by with_unfolding_all decide⟩

/-- C2 (amended): for every bar whose RVOL is NaN, `analyze_market`
substitutes the numeric value `1.0` before calling the breakout FSM (so the
FSM's NaN branch is not exercised on this path); the replay the orchestrator
runs is exactly the FSM fold over these substituted values, and no exception
is involved (the hot path is total). -/
theorem rvol_nan_substituted_with_one (bars : List Bar) (p : AnalysisParams)
    (i : ℕ) (tk tf : String) (eh : Option EHContext) (now : ℤ)
    (h : (featuresOf bars p).rvol.getD i none = none) :
    rvolForFSM (featuresOf bars p) i = 1 ∧
      (analyzeOk bars tk tf p none eh now).signals =
        (fsmRunFrom (fsmCfgOf p) fsmReset bars (zonesOf bars p tf eh)
          (featuresOf bars p)).2 :=
  ⟨by (rw [rvolForFSM, h]; rfl), rfl⟩

/-- Witness for `rvol_nan_substituted_with_one` at bar 5 of `bars15`. -/
theorem rvol_nan_substituted_with_one_witness :
    (featuresOf bars15 defaultParams).rvol.getD 5 none = none ∧
      rvolForFSM (featuresOf bars15 defaultParams) 5 = 1 :=
  ⟨by with_unfolding_all decide, (rvol_nan_substituted_with_one bars15 defaultParams 5
    "TEST" "1d" none 0 (by with_unfolding_all decide)).1⟩

/-- C7 counterexample: `analyze_market` happily produces a report for the
timeframe string `"2h"`, which is outside `{1m, 5m, 1d}` — no
`InvalidTimeframe` error exists anywhere in the code. -/
theorem invalid_timeframe_not_rejected :
    isOkB (analyze_market bars15 "TEST" "2h" defaultParams none none 0) = true := by
  rw [analyze_market, if_neg (by decide)]
  rfl

/-- C7 (amended): `analyze_market` validates only the bar count; for every
timeframe string whatsoever, a call with enough bars returns a report (the
timeframe only selects gap thresholds and zone padding, with everything
other than `"1m"`/`"5m"` treated like `"1d"`). -/
theorem analyze_market_accepts_any_timeframe (bars : List Bar) (tk tf : String)
    (p : AnalysisParams) (st : Option AnalysisState) (eh : Option EHContext)
    (now : ℤ) (h : minRequired p ≤ bars.length) :
    isOkB (analyze_market bars tk tf p st eh now) = true := by
  rw [analyze_market, if_neg (by omega)]
  rfl

/-- Witness for `analyze_market_accepts_any_timeframe` on a nonsense
timeframe. -/
theorem analyze_market_accepts_any_timeframe_witness :
    minRequired defaultParams ≤ bars15.length ∧
      isOkB (analyze_market bars15 "TEST" "7z" defaultParams none none 99) = true :=
  ⟨by decide, analyze_market_accepts_any_timeframe bars15 "TEST" "7z" defaultParams
    none none 99 (by decide)⟩

/-- C3: two `analyze_market` calls on the same `(bars, params)` with no
supplied state agree on every report field except `generated_at` (the only
place the wall clock enters). -/
theorem analyze_market_deterministic (bars : List Bar) (tk tf : String)
    (p : AnalysisParams) (eh : Option EHContext) (now1 now2 : ℤ) :
    (analyze_market bars tk tf p none eh now1).map eraseTime =
      (analyze_market bars tk tf p none eh now2).map eraseTime := by
  by_cases h : bars.length < minRequired p
  · rw [analyze_market, if_pos h, analyze_market, if_pos h]
  · rw [analyze_market, if_neg h, analyze_market, if_neg h]
    rfl

/-- `sortByScoreDesc` really sorts by non-increasing score. -/
theorem sortByScoreDesc_sorted (zs : List Zone) :
    List.Pairwise (fun a b : Zone => b.score ≤ a.score) (sortByScoreDesc zs) := by
  have h := @List.sorted_mergeSort Zone (fun a b : Zone => decide (b.score ≤ a.score))
    (fun a b c hab hbc => by
      simp only [decide_eq_true_eq] at hab hbc ⊢
      exact hbc.trans hab)
    (fun a b => by
      simp only [Bool.or_eq_true, decide_eq_true_eq]
      exact le_total b.score a.score) zs
  exact h.imp (by simp only [decide_eq_true_eq]; exact id)

/-- C1: with an EH context supplied, the zones the orchestrator hands to the
breakout FSM and the playbook generator are exactly the clustered zones with
the EH pseudo-zones injected; each present level becomes a half-tick-wide
pseudo-zone with static score 0.95 on the support side when it lies below the
current price and on the resistance side otherwise, and both sides remain
sorted by non-increasing score.  (`inject_eh_levels_as_zones` is modelled
from the spec — its definition is absent from the sources.) -/
theorem eh_levels_injected (bars : List Bar) (tk tf : String) (p : AnalysisParams)
    (st : Option AnalysisState) (now : ℤ) (ctx : EHContext) :
    ((analyzeOk bars tk tf p st (some ctx) now).zones =
        inject_eh_levels_as_zones (clusteredZonesOf bars p tf) ctx.levels
          (currentPriceOf bars p) (currentAtrOf bars p) ∧
      (analyzeOk bars tk tf p st (some ctx) now).signals =
        (fsmRunFrom (st.getD (create_initial_state p)).fsmCfg
          (st.getD (create_initial_state p)).fsm bars
          (inject_eh_levels_as_zones (clusteredZonesOf bars p tf) ctx.levels
            (currentPriceOf bars p) (currentAtrOf bars p)) (featuresOf bars p)).2 ∧
      (analyzeOk bars tk tf p st (some ctx) now).playbook =
        generate_playbook
          (classify_regime (swingsOf bars p).1 (swingsOf bars p).2 p.regime_m)
          (inject_eh_levels_as_zones (clusteredZonesOf bars p tf) ctx.levels
            (currentPriceOf bars p) (currentAtrOf bars p))
          (analyzeOk bars tk tf p st (some ctx) now).signals
          (currentAtrOf bars p) (currentPriceOf bars p) (some ctx)) ∧
    (∀ lv ∈ ehLevelList ctx.levels,
      (lv < currentPriceOf bars p →
        ehPseudoZone lv ∈
          (inject_eh_levels_as_zones (clusteredZonesOf bars p tf) ctx.levels
            (currentPriceOf bars p) (currentAtrOf bars p)).support) ∧
      (¬lv < currentPriceOf bars p →
        ehPseudoZone lv ∈
          (inject_eh_levels_as_zones (clusteredZonesOf bars p tf) ctx.levels
            (currentPriceOf bars p) (currentAtrOf bars p)).resistance)) ∧
    (∀ lv : ℚ, (ehPseudoZone lv).high - (ehPseudoZone lv).low = 1 / 200 ∧
      (ehPseudoZone lv).score = 19 / 20 ∧ (ehPseudoZone lv).low < (ehPseudoZone lv).high) ∧
    List.Pairwise (fun a b : Zone => b.score ≤ a.score)
      (inject_eh_levels_as_zones (clusteredZonesOf bars p tf) ctx.levels
        (currentPriceOf bars p) (currentAtrOf bars p)).support ∧
    List.Pairwise (fun a b : Zone => b.score ≤ a.score)
      (inject_eh_levels_as_zones (clusteredZonesOf bars p tf) ctx.levels
        (currentPriceOf bars p) (currentAtrOf bars p)).resistance := by
  refine ⟨⟨rfl, rfl, rfl⟩, ?_, ?_, ?_, ?_⟩
  · intro lv hlv
    constructor
    · intro hbelow
      simp only [inject_eh_levels_as_zones, sortByScoreDesc, List.mem_mergeSort,
        List.mem_append]
      right
      exact List.mem_map_of_mem _ (List.mem_filter.mpr ⟨hlv, by simpa using hbelow⟩)
    · intro habove
      simp only [inject_eh_levels_as_zones, sortByScoreDesc, List.mem_mergeSort,
        List.mem_append]
      right
      exact List.mem_map_of_mem _ (List.mem_filter.mpr ⟨hlv, by simpa using habove⟩)
  · intro lv
    refine ⟨?_, rfl, ?_⟩ <;> simp [ehPseudoZone] <;> linarith
  · exact sortByScoreDesc_sorted _
  · exact sortByScoreDesc_sorted _

/-- Witness for `eh_levels_injected`: in `ehCtx0`, the level `YC = 150` lies
above the current price of `bars15` and lands in the resistance list. -/
theorem eh_levels_injected_witness :
    (150 : ℚ) ∈ ehLevelList ehCtx0.levels ∧
      ¬(150 : ℚ) < currentPriceOf bars15 defaultParams ∧
      ehPseudoZone 150 ∈
        (inject_eh_levels_as_zones (clusteredZonesOf bars15 defaultParams "1d")
          ehCtx0.levels (currentPriceOf bars15 defaultParams)
          (currentAtrOf bars15 defaultParams)).resistance :=
  ⟨by with_unfolding_all decide, by with_unfolding_all decide,
    ((eh_levels_injected bars15 "TEST" "1d" defaultParams none 0 ehCtx0).2.1 150
      (by with_unfolding_all decide)).2 (by with_unfolding_all decide)⟩

/-- The feature pipeline's RVOL column is `calculate_rvol` verbatim. -/
theorem features_rvol (bars : List Bar) (p : AnalysisParams) :
    (featuresOf bars p).rvol = calculate_rvol bars p.volume_period := rfl

/-- Every non-NaN RVOL entry is strictly positive (a positive current volume
divided by a positive window mean). -/
theorem calculate_rvol_pos (bars : List Bar) (period i : ℕ) (x : ℚ)
    (h : (calculate_rvol bars period).getD i none = some x) : 0 < x := by
  by_cases hi : i < bars.length
  · rw [calculate_rvol] at h
    rw [getD_map_range _ none hi] at h
    simp only [] at h
    split_ifs at h with h1 h2 h3 h4
    all_goals try exact Option.noConfusion h
    have hx := Option.some.inj h
    subst hx
    have hv : 0 < (bars.map (·.v)).getD i 0 := by
      push_neg at h2
      exact h2
    exact div_pos hv h4
  · rw [calculate_rvol] at h
    have hlen : (bars.map (·.v)).length ≤ i := by simpa using le_of_not_lt hi
    rw [List.getD_eq_getElem?_getD, List.getElem?_map,
      List.getElem?_eq_none (by simpa using hlen)] at h
    simp at h

/-- The substituted RVOL stream handed to the FSM is strictly positive. -/
theorem rvolForFSM_pos (bars : List Bar) (p : AnalysisParams) (i : ℕ) :
    0 < rvolForFSM (featuresOf bars p) i := by
  rw [rvolForFSM]
  rcases h : (featuresOf bars p).rvol.getD i none with _ | x
  · simp
  · simp only [Option.getD_some]
    exact calculate_rvol_pos bars p.volume_period i x (by rwa [features_rvol] at h)

/-- `_emit_confirmed` never labels its signal `unavailable` when the tracked
maximum volume is positive. -/
theorem emitConfirmed_vq (cfg : FSMCfg) (st : FSMSt) (bar : Bar) (i : ℕ)
    (hmax : 0 < st.max_volume_seen) :
    ∀ s, (emitConfirmed cfg st bar i).2 = some s →
      s.volume_quality ≠ .unavailable := by
  intro s hs
  rw [emitConfirmed] at hs
  simp only [Option.some.injEq] at hs
  subst hs
  split_ifs with h1 <;> simp

/-- `_emit_fakeout` never labels its signal `unavailable` when the tracked
maximum volume is positive. -/
theorem emitFakeout_vq (cfg : FSMCfg) (st : FSMSt) (bar : Bar) (i : ℕ)
    (hmax : 0 < st.max_volume_seen) :
    ∀ s, (emitFakeout cfg st bar i).2 = some s →
      s.volume_quality ≠ .unavailable := by
  intro s hs
  rw [emitFakeout] at hs
  simp only [Option.some.injEq] at hs
  subst hs
  split_ifs with h1 <;> simp

set_option maxHeartbeats 1000000 in
/-- A single FSM step fed a positive (non-NaN) RVOL never emits a signal
labelled `unavailable`. -/
theorem fsmUpdate_signal_vq (cfg : FSMCfg) (st : FSMSt) (bar : Bar) (i : ℕ)
    (zones : ZoneMap) (r : ℚ) (atr : ℚ) (hr : 0 < r) :
    ∀ s, (fsmUpdate cfg st bar i zones (some r) atr).2 = some s →
      s.volume_quality ≠ .unavailable := by
  intro s hs
  rcases hst : st.state with _ | _ | _ | _ <;> rw [fsmUpdate, hst] at hs
  · -- idle: checkAttempt
    rw [checkAttempt] at hs
    rcases hfr : zones.resistance.find? (fun z => decide (z.high < bar.h)) with _ | z <;>
      rw [hfr] at hs
    · rcases hfs : zones.support.find? (fun z => decide (bar.l < z.low)) with _ | z <;>
        rw [hfs] at hs
      · simp at hs
      · simp only [attemptOn] at hs
        simp only [Option.some.injEq] at hs
        subst hs
        simp only [getSignalParams]
        split_ifs <;> simp
    · simp only [attemptOn] at hs
      simp only [Option.some.injEq] at hs
      subst hs
      simp only [getSignalParams]
      split_ifs <;> simp
  · -- attempt: checkConfirmation
    rw [checkConfirmation] at hs
    rcases hz : st.zone with _ | z <;> rw [hz] at hs
    · simp at hs
    · rcases ha : st.attempt_bar_index with _ | a <;> rw [ha] at hs
      · simp at hs
      · have hmax : 0 < max st.max_volume_seen r := lt_max_of_lt_right hr
        simp only [] at hs
        rcases hd : st.direction with _ | d
        · rw [hd] at hs
          simp only [] at hs
          split_ifs at hs <;> simp at hs
        · rcases d <;> rw [hd] at hs <;> split at hs <;> rename_i heq
          all_goals
            first
              | (obtain rfl := Option.some.inj hs
                 split_ifs at heq <;>
                   first
                     | exact Option.noConfusion heq
                     | exact emitConfirmed_vq _ _ _ _ hmax _ heq
                     | exact emitFakeout_vq _ _ _ _ hmax _ heq)
              | (split_ifs at hs <;> exact Option.noConfusion hs)
  · simp at hs
  · simp at hs

/-- The FSM replay over positive RVOL values yields no `unavailable` signal. -/
theorem fsmRunFrom_signals_vq (cfg : FSMCfg) (st0 : FSMSt) (bars : List Bar)
    (zones : ZoneMap) (f : Features) (hpos : ∀ i, 0 < rvolForFSM f i) :
    ∀ s ∈ (fsmRunFrom cfg st0 bars zones f).2, s.volume_quality ≠ .unavailable := by
  rw [fsmRunFrom]
  have aux : ∀ (idxs : List ℕ) (st : FSMSt) (acc : List Signal),
      (∀ s ∈ acc, s.volume_quality ≠ .unavailable) →
      ∀ s ∈ (idxs.foldl
        (fun acc i =>
          let bar := bars.getD i ⟨0, 0, 0, 0, 0, 0⟩
          let step := fsmUpdate cfg acc.1 bar i zones (some (rvolForFSM f i))
            (atrForFSM f bars i)
          (step.1, acc.2 ++ step.2.toList)) (st, acc)).2,
        s.volume_quality ≠ .unavailable := by
    intro idxs
    induction idxs with
    | nil => intro st acc hacc; simpa using hacc
    | cons i rest ih =>
        intro st acc hacc
        simp only [List.foldl_cons]
        apply ih
        intro s hsmem
        rcases List.mem_append.mp hsmem with hmem | hmem
        · exact hacc s hmem
        · rw [Option.mem_toList] at hmem
          exact fsmUpdate_signal_vq cfg st (bars.getD i ⟨0, 0, 0, 0, 0, 0⟩) i zones
            (rvolForFSM f i) (atrForFSM f bars i) (hpos i) s hmem
  exact aux (List.range bars.length) st0 [] (by simp)

/-- C10: every signal in a fresh `analyze_market` report is labelled
`confirmed` or `pending` — the `unavailable` label is unreachable through the
orchestrator because NaN RVOL is replaced by `1.0` (and genuine RVOL values
are strictly positive) before they reach the FSM. -/
theorem report_signals_never_unavailable (bars : List Bar) (tk tf : String)
    (p : AnalysisParams) (eh : Option EHContext) (now : ℤ) :
    ∀ s ∈ (analyzeOk bars tk tf p none eh now).signals,
      s.volume_quality = .confirmed ∨ s.volume_quality = .pending := by
  intro s hs
  have hne : s.volume_quality ≠ .unavailable :=
    fsmRunFrom_signals_vq (fsmCfgOf p) fsmReset bars (zonesOf bars p tf eh)
      (featuresOf bars p) (fun i => rvolForFSM_pos bars p i) s hs
  rcases hvq : s.volume_quality with _ | _ | _
  · exact Or.inl rfl
  · exact Or.inr rfl
  · exact absurd hvq hne

/-- The signal list of a fresh report is the FSM replay output. -/
theorem analyzeOk_signals_eq (bars : List Bar) (tk tf : String)
    (p : AnalysisParams) (eh : Option EHContext) (now : ℤ) :
    (analyzeOk bars tk tf p none eh now).signals =
      freshSignalsOf bars p tf eh := rfl

set_option maxRecDepth 10000 in
/-- Witness for `report_signals_never_unavailable`: the first signal of the
`bars15` report is `pending`. -/
theorem report_signals_never_unavailable_witness :
    (⟨.breakout_attempt, .up, 1417 / 14, 9 / 20, 432000, 5, .pending⟩ : Signal) ∈
        (analyzeOk bars15 "TEST" "1d" defaultParams none none 0).signals ∧
      ((⟨.breakout_attempt, .up, 1417 / 14, 9 / 20, 432000, 5, .pending⟩ :
          Signal).volume_quality = .confirmed ∨
        (⟨.breakout_attempt, .up, 1417 / 14, 9 / 20, 432000, 5, .pending⟩ :
          Signal).volume_quality = .pending) := by
  have he : freshSignalsOf bars15 defaultParams "1d" none =
      [⟨.breakout_attempt, .up, 1417 / 14, 9 / 20, 432000, 5, .pending⟩,
       ⟨.fakeout, .up, 1417 / 14, 3 / 4, 518400, 6, .pending⟩,
       ⟨.breakout_attempt, .down, 1383 / 14, 9 / 20, 777600, 9, .pending⟩,
       ⟨.fakeout, .down, 1383 / 14, 3 / 4, 864000, 10, .pending⟩] := by
    with_unfolding_all rfl
  have hmem : (⟨.breakout_attempt, .up, 1417 / 14, 9 / 20, 432000, 5, .pending⟩ :
      Signal) ∈ (analyzeOk bars15 "TEST" "1d" defaultParams none none 0).signals := by
    rw [analyzeOk_signals_eq, he]
    exact List.mem_cons_self _ _
  exact ⟨hmem, report_signals_never_unavailable bars15 "TEST" "1d" defaultParams
    none 0 _ hmem⟩

/-- Rounding to 4 decimals moves a real by at most `1 / 20000`. -/
theorem roundR_abs_le (x : ℝ) : |roundR 4 x - x| ≤ 1 / 20000 := by
  have h := abs_sub_round (x * 10 ^ 4)
  rw [abs_sub_comm, abs_le] at h
  rw [roundR, abs_le]
  norm_num at h ⊢
  constructor <;> linarith

/-- Rounding to 4 decimals preserves nonnegativity. -/
theorem roundR_nonneg (x : ℝ) (hx : 0 ≤ x) : 0 ≤ roundR 4 x := by
  rw [roundR]
  have hx4 : (0 : ℝ) ≤ x * 10 ^ 4 + 1 / 2 := by nlinarith
  have h : 0 ≤ round (x * 10 ^ 4) := by
    rw [round_eq]
    exact Int.floor_nonneg.mpr hx4
  have h' : (0 : ℝ) ≤ ((round (x * 10 ^ 4) : ℤ) : ℝ) := by exact_mod_cast h
  positivity

/-- Determination of 4-decimal rounding from a half-open window. -/
theorem roundR_eq_of (x : ℝ) (k : ℤ) (h1 : (k : ℝ) ≤ x * 10 ^ 4 + 1 / 2)
    (h2 : x * 10 ^ 4 + 1 / 2 < (k : ℝ) + 1) : roundR 4 x = (k : ℝ) / 10 ^ 4 := by
  rw [roundR, round_eq, Int.floor_eq_iff.mpr ⟨h1, h2⟩]

/-- `Real.exp` at a rational point lies in the rational Taylor interval. -/
theorem exp_rat_bounds (q : ℚ) (hq : |q| ≤ 1) :
    ((expLo q : ℚ) : ℝ) ≤ Real.exp ((q : ℝ)) ∧
      Real.exp ((q : ℝ)) ≤ ((expHi q : ℚ) : ℝ) := by
  have hx : |((q : ℚ) : ℝ)| ≤ 1 := by
    rw [← Rat.cast_abs]
    exact_mod_cast hq
  have h := @Real.exp_bound ((q : ℚ) : ℝ) hx 14 (by norm_num)
  have hts : ∑ m ∈ Finset.range 14, ((q : ℚ) : ℝ) ^ m / m.factorial =
      ((tsumQ q 14 : ℚ) : ℝ) := by
    rw [tsumQ]
    push_cast
    rfl
  have her : |((q : ℚ) : ℝ)| ^ 14 *
        (((Nat.succ 14 : ℕ) : ℝ) / (((Nat.factorial 14 : ℕ) : ℝ) * ((14 : ℕ) : ℝ))) =
      ((errQ q 14 : ℚ) : ℝ) := by
    rw [errQ, ← Rat.cast_abs]
    push_cast
    ring
  rw [hts, her, abs_le] at h
  constructor
  · rw [expLo]
    push_cast
    linarith [h.1]
  · rw [expHi]
    push_cast
    linarith [h.2]

/-- For five distinct keys and nonnegative values, looking up the argmax key
returns the maximum value. -/
theorem argmax_lookup_five (v1 v2 v3 v4 v5 : ℝ) (h1 : 0 ≤ v1) (h2 : 0 ≤ v2)
    (h3 : 0 ≤ v3) (h4 : 0 ≤ v4) (h5 : 0 ≤ v5) :
    lookupProb
        [(.accumulation, v1), (.shakeout, v2), (.markup, v3), (.distribution, v4),
         (.markdown, v5)]
        (argmaxKey
          [(.accumulation, v1), (.shakeout, v2), (.markup, v3), (.distribution, v4),
           (.markdown, v5)] .accumulation) =
      maxProbVal
        [(.accumulation, v1), (.shakeout, v2), (.markup, v3), (.distribution, v4),
         (.markdown, v5)] := by
  have l1 : lookupProb
      [(.accumulation, v1), (.shakeout, v2), (.markup, v3), (.distribution, v4),
       (.markdown, v5)] .accumulation = v1 := by simp [lookupProb]
  have l2 : lookupProb
      [(.accumulation, v1), (.shakeout, v2), (.markup, v3), (.distribution, v4),
       (.markdown, v5)] .shakeout = v2 := by simp [lookupProb]
  have l3 : lookupProb
      [(.accumulation, v1), (.shakeout, v2), (.markup, v3), (.distribution, v4),
       (.markdown, v5)] .markup = v3 := by simp [lookupProb]
  have l4 : lookupProb
      [(.accumulation, v1), (.shakeout, v2), (.markup, v3), (.distribution, v4),
       (.markdown, v5)] .distribution = v4 := by simp [lookupProb]
  have l5 : lookupProb
      [(.accumulation, v1), (.shakeout, v2), (.markup, v3), (.distribution, v4),
       (.markdown, v5)] .markdown = v5 := by simp [lookupProb]
  have m : maxProbVal
      [(.accumulation, v1), (.shakeout, v2), (.markup, v3), (.distribution, v4),
       (.markdown, v5)] = v1 ⊔ (v2 ⊔ (v3 ⊔ (v4 ⊔ (v5 ⊔ 0)))) := by
    simp [maxProbVal]
  rw [m]
  simp only [argmaxKey, List.foldl, apply_ite (fun p : BehaviorKind × ℝ => p.2),
    apply_ite (fun p : BehaviorKind × ℝ => p.1)]
  split_ifs <;>
    (simp only [l1, l2, l3, l4, l5]
     refine le_antisymm (by simp [le_max_iff]) ?_
     simp only [max_le_iff]
     exact ⟨by linarith, by linarith, by linarith, by linarith, by linarith, by linarith⟩)

/-- The rounded softmax of five scores: sum within `1/4000` of `1`, and the
first argmax key looks up the maximal value. -/
theorem stp_five (s1 s2 s3 s4 s5 : ℚ) :
    |(((scores_to_probabilities
          [(.accumulation, s1), (.shakeout, s2), (.markup, s3), (.distribution, s4),
           (.markdown, s5)]).map Prod.snd).sum) - 1| ≤ 1 / 4000 ∧
      lookupProb
          (scores_to_probabilities
            [(.accumulation, s1), (.shakeout, s2), (.markup, s3), (.distribution, s4),
             (.markdown, s5)])
          (argmaxKey
            (scores_to_probabilities
              [(.accumulation, s1), (.shakeout, s2), (.markup, s3), (.distribution, s4),
               (.markdown, s5)]) .accumulation) =
        maxProbVal
          (scores_to_probabilities
            [(.accumulation, s1), (.shakeout, s2), (.markup, s3), (.distribution, s4),
             (.markdown, s5)]) := by
  simp only [scores_to_probabilities, List.map_cons, List.map_nil, List.sum_cons,
    List.sum_nil]
  set M : ℚ := maxQ [s1, s2, s3, s4, s5] s1 with hM
  set E1 : ℝ := Real.exp (((s1 - M : ℚ) : ℝ)) with hE1
  set E2 : ℝ := Real.exp (((s2 - M : ℚ) : ℝ)) with hE2
  set E3 : ℝ := Real.exp (((s3 - M : ℚ) : ℝ)) with hE3
  set E4 : ℝ := Real.exp (((s4 - M : ℚ) : ℝ)) with hE4
  set E5 : ℝ := Real.exp (((s5 - M : ℚ) : ℝ)) with hE5
  set Z : ℝ := E1 + (E2 + (E3 + (E4 + (E5 + 0)))) with hZdef
  have he1 : 0 < E1 := by rw [hE1]; exact Real.exp_pos _
  have he2 : 0 < E2 := by rw [hE2]; exact Real.exp_pos _
  have he3 : 0 < E3 := by rw [hE3]; exact Real.exp_pos _
  have he4 : 0 < E4 := by rw [hE4]; exact Real.exp_pos _
  have he5 : 0 < E5 := by rw [hE5]; exact Real.exp_pos _
  have hZ : 0 < Z := by rw [hZdef]; linarith
  have hsum : E1 / Z + (E2 / Z + (E3 / Z + (E4 / Z + (E5 / Z + 0)))) = 1 := by
    field_simp
    rw [hZdef]
    ring
  have b1 := roundR_abs_le (E1 / Z)
  have b2 := roundR_abs_le (E2 / Z)
  have b3 := roundR_abs_le (E3 / Z)
  have b4 := roundR_abs_le (E4 / Z)
  have b5 := roundR_abs_le (E5 / Z)
  rw [abs_le] at b1 b2 b3 b4 b5
  constructor
  · rw [abs_le]
    constructor <;> linarith
  · exact argmax_lookup_five _ _ _ _ _
      (roundR_nonneg _ (div_nonneg he1.le hZ.le))
      (roundR_nonneg _ (div_nonneg he2.le hZ.le))
      (roundR_nonneg _ (div_nonneg he3.le hZ.le))
      (roundR_nonneg _ (div_nonneg he4.le hZ.le))
      (roundR_nonneg _ (div_nonneg he5.le hZ.le))

/-- The behavior block of a report is `infer_behavior` applied to the
orchestrator's inputs. -/
theorem analyzeOk_behavior_eq (bars : List Bar) (tk tf : String) (p : AnalysisParams)
    (st : Option AnalysisState) (eh : Option EHContext) (now : ℤ) :
    (analyzeOk bars tk tf p st eh now).behavior =
      infer_behavior bars (featuresOf bars p) (zonesOf bars p tf eh)
        (classify_regime (swingsOf bars p).1 (swingsOf bars p).2 p.regime_m)
        (fsmRunFrom (st.getD (create_initial_state p)).fsmCfg
          (st.getD (create_initial_state p)).fsm bars (zonesOf bars p tf eh)
          (featuresOf bars p)).2 := rfl

/-- For a stateless call the behavior block is computed from the fresh FSM
replay. -/
theorem analyzeOk_behavior_none_eq (bars : List Bar) (tk tf : String)
    (p : AnalysisParams) (eh : Option EHContext) (now : ℤ) :
    (analyzeOk bars tk tf p none eh now).behavior =
      infer_behavior bars (featuresOf bars p) (zonesOf bars p tf eh)
        (classify_regime (swingsOf bars p).1 (swingsOf bars p).2 p.regime_m)
        (freshSignalsOf bars p tf eh) := rfl

/-- C5 (amended): every report's five behavior probabilities sum to `1`
within `1/4000` (each of the five is rounded to 4 decimals, so the exact
softmax total `1` can drift by at most `5 · 1/20000`), and the dominant
phase looks up the maximal probability. -/
theorem behavior_probability_simplex (bars : List Bar) (tk tf : String)
    (p : AnalysisParams) (st : Option AnalysisState) (eh : Option EHContext)
    (now : ℤ) :
    |sumProbs (analyzeOk bars tk tf p st eh now) - 1| ≤ 1 / 4000 ∧
      lookupProb (analyzeOk bars tk tf p st eh now).behavior.probabilities
          ((analyzeOk bars tk tf p st eh now).behavior.dominant) =
        maxProbVal (analyzeOk bars tk tf p st eh now).behavior.probabilities := by
  rw [sumProbs, analyzeOk_behavior_eq, infer_behavior]
  simp only []
  rw [behaviorScores]
  exact stp_five _ _ _ _ _

set_option maxRecDepth 10000 in
/-- C5 counterexample: on `bars15` the five 4-decimal-rounded probabilities
are `0.2067, 0.2790, 0.1385, 0.2067, 0.1692`, so they sum to `1.0001`: the
report's probability total misses `1` by `10⁻⁴`, not within `10⁻⁶`. -/
theorem behavior_prob_sum_off_by_1e4 :
    sumProbs (analyzeOk bars15 "TEST" "1d" defaultParams none none 0) = 10001 / 10000 ∧
      ¬ |sumProbs (analyzeOk bars15 "TEST" "1d" defaultParams none none 0) - 1| <
          1 / 1000000 := by
  have hscores :
      behaviorScores bars15 (featuresOf bars15 defaultParams)
        (zonesOf bars15 defaultParams "1d" none)
        (classify_regime (swingsOf bars15 defaultParams).1
          (swingsOf bars15 defaultParams).2 defaultParams.regime_m)
        (freshSignalsOf bars15 defaultParams "1d" none) =
      [(.accumulation, 2 / 5), (.shakeout, 7 / 10), (.markup, 0),
       (.distribution, 2 / 5), (.markdown, 1 / 5)] := by
    with_unfolding_all decide
  have hsum : sumProbs (analyzeOk bars15 "TEST" "1d" defaultParams none none 0) =
      10001 / 10000 := by
    rw [sumProbs, analyzeOk_behavior_none_eq, infer_behavior]
    simp only []
    rw [hscores]
    simp only [scores_to_probabilities, List.map_cons, List.map_nil, List.sum_cons,
      List.sum_nil]
    have hM : maxQ [2 / 5, 7 / 10, 0, 2 / 5, 1 / 5] (2 / 5 : ℚ) = 7 / 10 := by
      with_unfolding_all decide
    rw [hM]
    rw [show (2 / 5 - 7 / 10 : ℚ) = -(3 / 10) by norm_num,
      show (7 / 10 - 7 / 10 : ℚ) = 0 by norm_num,
      show (0 - 7 / 10 : ℚ) = -(7 / 10) by norm_num,
      show (1 / 5 - 7 / 10 : ℚ) = -(1 / 2) by norm_num]
    obtain ⟨lb1, ub1⟩ := exp_rat_bounds (-(3 / 10)) (by rw [abs_le]; constructor <;> norm_num)
    obtain ⟨lb2, ub2⟩ := exp_rat_bounds 0 (by rw [abs_le]; constructor <;> norm_num)
    obtain ⟨lb3, ub3⟩ := exp_rat_bounds (-(7 / 10)) (by rw [abs_le]; constructor <;> norm_num)
    obtain ⟨lb5, ub5⟩ := exp_rat_bounds (-(1 / 2)) (by rw [abs_le]; constructor <;> norm_num)
    set E1 : ℝ := Real.exp (((-(3 / 10) : ℚ) : ℝ)) with hE1
    set E2 : ℝ := Real.exp (((0 : ℚ) : ℝ)) with hE2
    set E3 : ℝ := Real.exp (((-(7 / 10) : ℚ) : ℝ)) with hE3
    set E5 : ℝ := Real.exp (((-(1 / 2) : ℚ) : ℝ)) with hE5
    set Z : ℝ := E1 + (E2 + (E3 + (E1 + (E5 + 0)))) with hZdef
    have he1 : (0 : ℝ) < E1 := by rw [hE1]; exact Real.exp_pos _
    have he2 : (0 : ℝ) < E2 := by rw [hE2]; exact Real.exp_pos _
    have he3 : (0 : ℝ) < E3 := by rw [hE3]; exact Real.exp_pos _
    have he5 : (0 : ℝ) < E5 := by rw [hE5]; exact Real.exp_pos _
    have hZlo : ((zLo15 : ℚ) : ℝ) ≤ Z := by
      rw [hZdef, zLo15]
      push_cast
      linarith
    have hZhi : Z ≤ ((zHi15 : ℚ) : ℝ) := by
      rw [hZdef, zHi15]
      push_cast
      linarith
    have hz0 : (0 : ℚ) < zLo15 := by with_unfolding_all decide
    have hZloPos : (0 : ℝ) < ((zLo15 : ℚ) : ℝ) := by exact_mod_cast hz0
    have hZpos : (0 : ℝ) < Z := lt_of_lt_of_le hZloPos hZlo
    have hexphiE1 : (0 : ℝ) ≤ ((expHi (-(3 / 10)) : ℚ) : ℝ) := by
      exact_mod_cast (le_of_lt (by with_unfolding_all decide : (0 : ℚ) < expHi (-(3 / 10))))
    have hexphiE2 : (0 : ℝ) ≤ ((expHi (0) : ℚ) : ℝ) := by
      exact_mod_cast (le_of_lt (by with_unfolding_all decide : (0 : ℚ) < expHi (0)))
    have hexphiE3 : (0 : ℝ) ≤ ((expHi (-(7 / 10)) : ℚ) : ℝ) := by
      exact_mod_cast (le_of_lt (by with_unfolding_all decide : (0 : ℚ) < expHi (-(7 / 10))))
    have hexphiE5 : (0 : ℝ) ≤ ((expHi (-(1 / 2)) : ℚ) : ℝ) := by
      exact_mod_cast (le_of_lt (by with_unfolding_all decide : (0 : ℚ) < expHi (-(1 / 2))))
    have hr1 : roundR 4 (E1 / Z) = ((2067 : ℤ) : ℝ) / 10 ^ 4 := by
      apply roundR_eq_of
      · push_cast
        have hlow : ((expLo (-(3 / 10)) : ℚ) : ℝ) / ((zHi15 : ℚ) : ℝ) ≤ E1 / Z :=
          div_le_div he1.le lb1 hZpos hZhi
        have hnum : ((2067 : ℚ)) ≤ expLo (-(3 / 10)) / zHi15 * 10 ^ 4 + 1 / 2 := by
          with_unfolding_all decide
        have hnum2 : (((2067 : ℚ)) : ℝ) ≤
            ((expLo (-(3 / 10)) / zHi15 * 10 ^ 4 + 1 / 2 : ℚ) : ℝ) := Rat.cast_le.mpr hnum
        push_cast at hnum2
        linarith
      · push_cast
        have hhigh : E1 / Z ≤ ((expHi (-(3 / 10)) : ℚ) : ℝ) / ((zLo15 : ℚ) : ℝ) :=
          div_le_div hexphiE1 ub1 hZloPos hZlo
        have hnum : expHi (-(3 / 10)) / zLo15 * 10 ^ 4 + 1 / 2 < ((2068 : ℚ)) := by
          with_unfolding_all decide
        have hnum2 : ((expHi (-(3 / 10)) / zLo15 * 10 ^ 4 + 1 / 2 : ℚ) : ℝ) <
            (((2068 : ℚ)) : ℝ) := Rat.cast_lt.mpr hnum
        push_cast at hnum2
        linarith
    have hr2 : roundR 4 (E2 / Z) = ((2790 : ℤ) : ℝ) / 10 ^ 4 := by
      apply roundR_eq_of
      · push_cast
        have hlow : ((expLo (0) : ℚ) : ℝ) / ((zHi15 : ℚ) : ℝ) ≤ E2 / Z :=
          div_le_div he2.le lb2 hZpos hZhi
        have hnum : ((2790 : ℚ)) ≤ expLo (0) / zHi15 * 10 ^ 4 + 1 / 2 := by
          with_unfolding_all decide
        have hnum2 : (((2790 : ℚ)) : ℝ) ≤
            ((expLo (0) / zHi15 * 10 ^ 4 + 1 / 2 : ℚ) : ℝ) := Rat.cast_le.mpr hnum
        push_cast at hnum2
        linarith
      · push_cast
        have hhigh : E2 / Z ≤ ((expHi (0) : ℚ) : ℝ) / ((zLo15 : ℚ) : ℝ) :=
          div_le_div hexphiE2 ub2 hZloPos hZlo
        have hnum : expHi (0) / zLo15 * 10 ^ 4 + 1 / 2 < ((2791 : ℚ)) := by
          with_unfolding_all decide
        have hnum2 : ((expHi (0) / zLo15 * 10 ^ 4 + 1 / 2 : ℚ) : ℝ) <
            (((2791 : ℚ)) : ℝ) := Rat.cast_lt.mpr hnum
        push_cast at hnum2
        linarith
    have hr3 : roundR 4 (E3 / Z) = ((1385 : ℤ) : ℝ) / 10 ^ 4 := by
      apply roundR_eq_of
      · push_cast
        have hlow : ((expLo (-(7 / 10)) : ℚ) : ℝ) / ((zHi15 : ℚ) : ℝ) ≤ E3 / Z :=
          div_le_div he3.le lb3 hZpos hZhi
        have hnum : ((1385 : ℚ)) ≤ expLo (-(7 / 10)) / zHi15 * 10 ^ 4 + 1 / 2 := by
          with_unfolding_all decide
        have hnum2 : (((1385 : ℚ)) : ℝ) ≤
            ((expLo (-(7 / 10)) / zHi15 * 10 ^ 4 + 1 / 2 : ℚ) : ℝ) := Rat.cast_le.mpr hnum
        push_cast at hnum2
        linarith
      · push_cast
        have hhigh : E3 / Z ≤ ((expHi (-(7 / 10)) : ℚ) : ℝ) / ((zLo15 : ℚ) : ℝ) :=
          div_le_div hexphiE3 ub3 hZloPos hZlo
        have hnum : expHi (-(7 / 10)) / zLo15 * 10 ^ 4 + 1 / 2 < ((1386 : ℚ)) := by
          with_unfolding_all decide
        have hnum2 : ((expHi (-(7 / 10)) / zLo15 * 10 ^ 4 + 1 / 2 : ℚ) : ℝ) <
            (((1386 : ℚ)) : ℝ) := Rat.cast_lt.mpr hnum
        push_cast at hnum2
        linarith
    have hr5 : roundR 4 (E5 / Z) = ((1692 : ℤ) : ℝ) / 10 ^ 4 := by
      apply roundR_eq_of
      · push_cast
        have hlow : ((expLo (-(1 / 2)) : ℚ) : ℝ) / ((zHi15 : ℚ) : ℝ) ≤ E5 / Z :=
          div_le_div he5.le lb5 hZpos hZhi
        have hnum : ((1692 : ℚ)) ≤ expLo (-(1 / 2)) / zHi15 * 10 ^ 4 + 1 / 2 := by
          with_unfolding_all decide
        have hnum2 : (((1692 : ℚ)) : ℝ) ≤
            ((expLo (-(1 / 2)) / zHi15 * 10 ^ 4 + 1 / 2 : ℚ) : ℝ) := Rat.cast_le.mpr hnum
        push_cast at hnum2
        linarith
      · push_cast
        have hhigh : E5 / Z ≤ ((expHi (-(1 / 2)) : ℚ) : ℝ) / ((zLo15 : ℚ) : ℝ) :=
          div_le_div hexphiE5 ub5 hZloPos hZlo
        have hnum : expHi (-(1 / 2)) / zLo15 * 10 ^ 4 + 1 / 2 < ((1693 : ℚ)) := by
          with_unfolding_all decide
        have hnum2 : ((expHi (-(1 / 2)) / zLo15 * 10 ^ 4 + 1 / 2 : ℚ) : ℝ) <
            (((1693 : ℚ)) : ℝ) := Rat.cast_lt.mpr hnum
        push_cast at hnum2
        linarith
    rw [hr1, hr2, hr3, hr5]
    norm_num
  refine ⟨hsum, ?_⟩
  rw [hsum]
  rw [show (10001 / 10000 : ℝ) - 1 = 1 / 10000 by norm_num]
  rw [abs_of_pos (by norm_num : (0 : ℝ) < 1 / 10000)]
  norm_num

end KLine
